import Mathlib

/-!
# FirstV8: the script bridge of the game (`GameScriptInterface`)

A shallow embedding of `Code/Game/Framework/GameScriptInterface.cpp` and of the parts of
`Code/Game/Game.cpp` it calls, followed by theorems about the method dispatch.

Conventions of the embedding

* A C++ body either returns, throws a `std::exception` (all exceptions raised in these files are
  `std::invalid_argument`), or has undefined behaviour (an out-of-bounds `operator[]`).  The three
  cases are the constructors of `Outcome`.
* `std::any` is the closed union `AnyValue` of the payload kinds the extractors distinguish.
* `float` and `double` values are the rationals they denote (finite values); the roundings
  `static_cast<float>(double)`, `static_cast<float>(int)` and `std::to_string(float)` are fields of
  `Host`, so every theorem holds whatever they compute.
* `int` is `Int`, `size_t` is `Nat` with explicit reduction modulo `2^64` where the source adds.
* `DebuggerPrintf` logging is not part of the state and is left out.
-/

namespace FirstV8

/-! ## Control flow -/

/-- Result of running a C++ body: a returned value, a thrown `std::exception` carrying its
`what()` text, or undefined behaviour. -/
inductive Outcome (α : Type) where
  | ret (a : α)
  | thrown (what : String)
  | undefined
  deriving DecidableEq

/-- The construct `try body catch (const std::exception& e) handler`: a thrown exception is
handed to the handler, a returned value and undefined behaviour pass through. -/
def Outcome.tryCatch {α : Type} (body : Outcome α) (handler : String → Outcome α) : Outcome α :=
  match body with
  | .thrown what => handler what
  | .ret a => .ret a
  | .undefined => .undefined

/-- Sequencing of two C++ statements: the second runs on the value the first returns; a throw or
undefined behaviour in the first ends the sequence. -/
def Outcome.bind {α β : Type} (first : Outcome α) (next : α → Outcome β) : Outcome β :=
  match first with
  | .ret a => next a
  | .thrown what => .thrown what
  | .undefined => .undefined

/-! ## Values -/

/-- The kinds of value a `std::any` argument can hold, as far as `std::any_cast` in the
extractors tells them apart.  `other` stands for every further held type, named by its type;
`cstr` is a `const char*` that points to a string (arguments are converted script values, so the
pointer is never null). -/
inductive AnyValue where
  | empty
  | bool (b : Bool)
  | int (n : Int)
  | float (q : Rat)
  | double (q : Rat)
  | string (s : String)
  | cstr (s : String)
  | other (typeName : String)
  deriving DecidableEq

/-- Engine type `Vec3` (three `float` members). -/
structure Vec3 where
  x : Rat
  y : Rat
  z : Rat
  deriving DecidableEq

/-- Engine type `Rgba8` (four `unsigned char` members). -/
structure Rgba8 where
  r : Nat
  g : Nat
  b : Nat
  a : Nat
  deriving DecidableEq

/-- Modelled from the spec: `ScriptMethodResult` is declared in
`Engine/Scripting/IScriptableObject.hpp`, which is not among the sources.  The source reads its
`success` member and builds it with `Success(value)`, `Success()` and `Error(message)`; the spec
calls it a tagged outcome of Success with an optional payload or Error with a message. -/
structure ScriptMethodResult where
  success : Bool
  result : AnyValue
  errorMessage : String
  deriving DecidableEq

/-- Source function `ScriptMethodResult::Success(value)`; `Success()` passes the empty `std::any`. -/
def ScriptMethodResult.Success (value : AnyValue) : ScriptMethodResult :=
  { success := true, result := value, errorMessage := "" }

/-- Source function `ScriptMethodResult::Error(message)`. -/
def ScriptMethodResult.Error (message : String) : ScriptMethodResult :=
  { success := false, result := AnyValue.empty, errorMessage := message }

/-- Modelled from the spec: `ScriptMethodInfo` is declared in
`Engine/Scripting/IScriptableObject.hpp`, which is not among the sources.  Its constructor takes
the name, the description, the ordered parameter-type tags and the return-type tag. -/
structure ScriptMethodInfo where
  name : String
  description : String
  parameterTypes : List String
  returnType : String
  deriving DecidableEq

/-! ## Game state (`Game.hpp`) -/

/-- The enum `eGameState`. -/
inductive eGameState where
  | ATTRACT
  | GAME
  deriving DecidableEq

/-- The members of a `Prop` that the bridge writes. -/
structure GameProp where
  m_position : Vec3
  m_color : Rgba8
  deriving DecidableEq

/-- The member of `Player` that the sources read and write. -/
structure Player where
  m_position : Vec3
  deriving DecidableEq

/-- The members of `Game` the bridge reaches.  `m_props` holds pointers to distinct heap objects
(every `push_back` in `Game.cpp` pushes a freshly allocated, non-null `Prop`), so the vector is a
list of the objects themselves; `m_player` is a nullable pointer. -/
structure Game where
  m_player : Option Player
  m_props : List GameProp
  m_gameState : eGameState
  deriving DecidableEq

/-- The game together with the process-wide objects its methods use: the state of `g_theRNG`
and `g_theV8Subsystem` (`none` is the null pointer, `some b` an engine whose `IsInitialized()`
is `b`). -/
structure World where
  game : Game
  rng : Nat
  v8 : Option Bool
  deriving DecidableEq

/-- Operations of the C++ runtime and of the engine library that the sources call and do not
define.  They are parameters of the embedding. `executeScript` and `executeScriptFile` return the
engine's success flag and the world after the script ran (a script can call back into the
game). -/
structure Host where
  floatOfDouble : Rat → Rat
  floatOfInt : Int → Rat
  floatToString : Rat → String
  rollRandomIntInRange : Nat → Int → Int → Int × Nat
  executeScript : String → World → Bool × World
  executeScriptFile : String → World → Bool × World

/-! ## Machine arithmetic -/

/-- The value `static_cast<int>(n)` of a `size_t`: reduction modulo `2^32` into the range of
a 32-bit `int`. -/
def sizeToInt (n : Nat) : Int :=
  ((n + 2147483648) % 4294967296 : Nat) - 2147483648

/-- The value `static_cast<int>(q)` of a floating-point value: truncation toward zero.  When the
truncated value does not fit a 32-bit `int` the language leaves the result open; the conversion
instruction of the x86-64 target yields `INT_MIN`, which is what is taken here. -/
def truncToInt (q : Rat) : Int :=
  let t := Int.tdiv q.num q.den
  if -2147483648 ≤ t ∧ t ≤ 2147483647 then t else -2147483648

/-- Addition of `size_t` values. -/
def sizeAdd (a b : Nat) : Nat := (a + b) % 18446744073709551616

/-- The read `args[i]` of a `std::vector`: undefined behaviour outside the bounds. -/
def argAt (args : List AnyValue) (i : Nat) : Outcome AnyValue :=
  match args.get? i with
  | some a => .ret a
  | none => .undefined

/-! ## Argument extraction (`GameScriptInterface.cpp`, helper methods) -/

/-- Source function `GameScriptInterface::ExtractFloat`: `any_cast<float>`, then `any_cast<double>`, then
`any_cast<int>`, each later cast tried when the earlier one throws `bad_any_cast`. -/
def ExtractFloat (H : Host) (arg : AnyValue) : Outcome Rat :=
  match arg with
  | .float q => .ret q
  | .double q => .ret (H.floatOfDouble q)
  | .int n => .ret (H.floatOfInt n)
  | _ => .thrown "無法轉換為 float 類型"

/-- Source function `GameScriptInterface::ExtractInt`: `any_cast<int>`, then `any_cast<float>`, then
`any_cast<double>`. -/
def ExtractInt (arg : AnyValue) : Outcome Int :=
  match arg with
  | .int n => .ret n
  | .float q => .ret (truncToInt q)
  | .double q => .ret (truncToInt q)
  | _ => .thrown "無法轉換為 int 類型"

/-- Source function `GameScriptInterface::ExtractString`: `any_cast<std::string>`, then
`any_cast<const char*>`. -/
def ExtractString (arg : AnyValue) : Outcome String :=
  match arg with
  | .string s => .ret s
  | .cstr s => .ret s
  | _ => .thrown "無法轉換為 string 類型"

/-- Source function `GameScriptInterface::ExtractBool`: `any_cast<bool>`, then `any_cast<int>` compared
with zero. -/
def ExtractBool (arg : AnyValue) : Outcome Bool :=
  match arg with
  | .bool b => .ret b
  | .int val => .ret (decide (val ≠ 0))
  | _ => .thrown "無法轉換為 bool 類型"

/-- Source function `GameScriptInterface::ExtractVec3`: the guard `startIndex + 2 >= args.size()` in `size_t`
arithmetic, then the three components extracted in the order x, y, z. -/
def ExtractVec3 (H : Host) (args : List AnyValue) (startIndex : Nat) : Outcome Vec3 :=
  if sizeAdd startIndex 2 ≥ args.length then
    .thrown "Vec3 需要 3 個參數 (x, y, z)"
  else
    (argAt args startIndex).bind fun a0 =>
    (ExtractFloat H a0).bind fun x =>
    (argAt args (sizeAdd startIndex 1)).bind fun a1 =>
    (ExtractFloat H a1).bind fun y =>
    (argAt args (sizeAdd startIndex 2)).bind fun a2 =>
    (ExtractFloat H a2).bind fun z =>
    .ret { x := x, y := y, z := z }

/-- Source function `GameScriptInterface::ValidateArgCount`; the stream inserts `size_t` values in decimal. -/
def ValidateArgCount (args : List AnyValue) (expectedCount : Nat) (methodName : String) :
    ScriptMethodResult :=
  if args.length ≠ expectedCount then
    ScriptMethodResult.Error
      (methodName ++ " 需要 " ++ toString expectedCount ++ " 個參數，但收到 " ++
        toString args.length ++ " 個")
  else
    ScriptMethodResult.Success AnyValue.empty

/-- Source function `GameScriptInterface::ValidateArgCountRange`. -/
def ValidateArgCountRange (args : List AnyValue) (minCount maxCount : Nat)
    (methodName : String) : ScriptMethodResult :=
  if args.length < minCount ∨ args.length > maxCount then
    ScriptMethodResult.Error
      (methodName ++ " 需要 " ++ toString minCount ++ "-" ++ toString maxCount ++
        " 個參數，但收到 " ++ toString args.length ++ " 個")
  else
    ScriptMethodResult.Success AnyValue.empty

/-! ## Game operations (`Game.cpp`) -/

/-- Source function `Game::IsAttractMode`. -/
def Game.IsAttractMode (g : Game) : Bool :=
  decide (g.m_gameState = eGameState.ATTRACT)

/-- Source function `Game::GetPlayer`. -/
def Game.GetPlayer (g : Game) : Option Player := g.m_player

/-- The conversion `static_cast<unsigned char>(n)` of an `int`. -/
def toUChar (n : Int) : Nat := (n % 256).toNat

/-- Source function `Game::CreateCube`: a new `Prop` at `position` with three random colour channels rolled in
`[100, 255]` and alpha 255, pushed at the back of `m_props`.  The three rolls are threaded
through the generator state in the order red, green, blue (C++ leaves the order of the
constructor arguments open); the vertex data built by `InitializeLocalVertsForCube` is rendering
state and is not modelled. -/
def Game.CreateCube (H : Host) (w : World) (position : Vec3) : World :=
  let r := H.rollRandomIntInRange w.rng 100 255
  let g := H.rollRandomIntInRange r.2 100 255
  let b := H.rollRandomIntInRange g.2 100 255
  let newCube : GameProp :=
    { m_position := position
      m_color := { r := toUChar r.1, g := toUChar g.1, b := toUChar b.1, a := 255 } }
  { w with
    game := { w.game with m_props := w.game.m_props ++ [newCube] }
    rng := b.2 }

/-- Source function `Game::MoveProp`: the guarded write `m_props[propIndex]->m_position = newPosition`; the
other branch only logs a warning.  The subscript is undefined behaviour outside the vector. -/
def Game.MoveProp (g : Game) (propIndex : Int) (newPosition : Vec3) : Outcome Game :=
  if propIndex ≥ 0 ∧ propIndex < sizeToInt g.m_props.length then
    match g.m_props.get? propIndex.toNat with
    | some p =>
      .ret { g with
             m_props := g.m_props.set propIndex.toNat { p with m_position := newPosition } }
    | none => .undefined
  else
    .ret g

/-- Source function `Game::ExecuteJavaScriptCommand`: the script is run when the engine exists and is
initialised; the engine's success flag only selects what is logged. -/
def Game.ExecuteJavaScriptCommand (H : Host) (w : World) (command : String) : World :=
  match w.v8 with
  | some true => (H.executeScript command w).2
  | _ => w

/-- Source function `Game::ExecuteJavaScriptFile`: as for a command, with `ExecuteScriptFile`. -/
def Game.ExecuteJavaScriptFile (H : Host) (w : World) (filename : String) : World :=
  match w.v8 with
  | some true => (H.executeScriptFile filename w).2
  | _ => w

/-! ## The bridge (`GameScriptInterface.cpp`) -/

/-- Source function `GameScriptInterface::GetScriptObjectName`. -/
def GetScriptObjectName : String := "game"

/-- Source function `GameScriptInterface::GetAvailableMethods`. -/
def GetAvailableMethods : List ScriptMethodInfo :=
  [ { name := "createCube", description := "在指定位置創建一個立方體",
      parameterTypes := ["float", "float", "float"], returnType := "string" },
    { name := "moveProp", description := "移動指定索引的道具到新位置",
      parameterTypes := ["int", "float", "float", "float"], returnType := "string" },
    { name := "getPlayerPosition", description := "取得玩家目前位置",
      parameterTypes := [], returnType := "object" },
    { name := "executeCommand", description := "執行 JavaScript 指令",
      parameterTypes := ["string"], returnType := "string" },
    { name := "executeFile", description := "執行 JavaScript 檔案",
      parameterTypes := ["string"], returnType := "string" },
    { name := "isAttractMode", description := "檢查遊戲是否處於吸引模式",
      parameterTypes := [], returnType := "bool" },
    { name := "getGameState", description := "取得目前遊戲狀態",
      parameterTypes := [], returnType := "string" } ]

/-- Source function `GameScriptInterface::GetAvailableProperties`. -/
def GetAvailableProperties : List String := ["attractMode", "gameState"]

/-- Source function `GameScriptInterface::ExecuteCreateCube`.  In this and the following methods the handler of
the `try` block returns with the world of the call: every statement that can throw stands before
the first statement that writes. -/
def ExecuteCreateCube (H : Host) (w : World) (args : List AnyValue) :
    Outcome (ScriptMethodResult × World) :=
  let result := ValidateArgCount args 3 "createCube"
  if result.success = false then .ret (result, w)
  else
    Outcome.tryCatch
      ((ExtractVec3 H args 0).bind fun position =>
        .ret (ScriptMethodResult.Success (AnyValue.string
                ("立方體創建成功，位置: (" ++ H.floatToString position.x ++ ", " ++
                  H.floatToString position.y ++ ", " ++ H.floatToString position.z ++ ")")),
              Game.CreateCube H w position))
      (fun what => .ret (ScriptMethodResult.Error ("創建立方體失敗: " ++ what), w))

/-- Source function `GameScriptInterface::ExecuteMoveProp`. -/
def ExecuteMoveProp (H : Host) (w : World) (args : List AnyValue) :
    Outcome (ScriptMethodResult × World) :=
  let result := ValidateArgCount args 4 "moveProp"
  if result.success = false then .ret (result, w)
  else
    Outcome.tryCatch
      ((argAt args 0).bind fun a0 =>
        (ExtractInt a0).bind fun propIndex =>
        (ExtractVec3 H args 1).bind fun newPosition =>
        (Game.MoveProp w.game propIndex newPosition).bind fun g =>
        .ret (ScriptMethodResult.Success (AnyValue.string
                ("道具 " ++ toString propIndex ++ " 移動成功，新位置: (" ++
                  H.floatToString newPosition.x ++ ", " ++ H.floatToString newPosition.y ++
                  ", " ++ H.floatToString newPosition.z ++ ")")),
              { w with game := g }))
      (fun what => .ret (ScriptMethodResult.Error ("移動道具失敗: " ++ what), w))

/-- Source function `GameScriptInterface::ExecuteGetPlayerPosition`; the reported position is the local
`Vec3 position(0.0f, 0.0f, 0.0f)` of the source. -/
def ExecuteGetPlayerPosition (H : Host) (w : World) (args : List AnyValue) :
    Outcome (ScriptMethodResult × World) :=
  let result := ValidateArgCount args 0 "getPlayerPosition"
  if result.success = false then .ret (result, w)
  else
    Outcome.tryCatch
      (match Game.GetPlayer w.game with
       | none => .ret (ScriptMethodResult.Error "玩家物件不存在", w)
       | some _ =>
         let position : Vec3 := { x := 0, y := 0, z := 0 }
         let positionStr :=
           "\x7b x: " ++ H.floatToString position.x ++ ", y: " ++ H.floatToString position.y ++
             ", z: " ++ H.floatToString position.z ++ " \x7d"
         .ret (ScriptMethodResult.Success (AnyValue.string positionStr), w))
      (fun what => .ret (ScriptMethodResult.Error ("取得玩家位置失敗: " ++ what), w))

/-- Source function `GameScriptInterface::ExecuteJavaScriptCommand`. -/
def ExecuteJavaScriptCommand (H : Host) (w : World) (args : List AnyValue) :
    Outcome (ScriptMethodResult × World) :=
  let result := ValidateArgCount args 1 "executeCommand"
  if result.success = false then .ret (result, w)
  else
    Outcome.tryCatch
      ((argAt args 0).bind fun a0 =>
        (ExtractString a0).bind fun command =>
        .ret (ScriptMethodResult.Success (AnyValue.string ("指令執行: " ++ command)),
              Game.ExecuteJavaScriptCommand H w command))
      (fun what => .ret (ScriptMethodResult.Error ("執行 JavaScript 指令失敗: " ++ what), w))

/-- Source function `GameScriptInterface::ExecuteJavaScriptFile`. -/
def ExecuteJavaScriptFile (H : Host) (w : World) (args : List AnyValue) :
    Outcome (ScriptMethodResult × World) :=
  let result := ValidateArgCount args 1 "executeFile"
  if result.success = false then .ret (result, w)
  else
    Outcome.tryCatch
      ((argAt args 0).bind fun a0 =>
        (ExtractString a0).bind fun filename =>
        .ret (ScriptMethodResult.Success (AnyValue.string ("檔案執行: " ++ filename)),
              Game.ExecuteJavaScriptFile H w filename))
      (fun what => .ret (ScriptMethodResult.Error ("執行 JavaScript 檔案失敗: " ++ what), w))

/-- Source function `GameScriptInterface::ExecuteIsAttractMode`. -/
def ExecuteIsAttractMode (w : World) (args : List AnyValue) :
    Outcome (ScriptMethodResult × World) :=
  let result := ValidateArgCount args 0 "isAttractMode"
  if result.success = false then .ret (result, w)
  else
    Outcome.tryCatch
      (.ret (ScriptMethodResult.Success (AnyValue.bool (Game.IsAttractMode w.game)), w))
      (fun what => .ret (ScriptMethodResult.Error ("檢查吸引模式失敗: " ++ what), w))

/-- Source function `GameScriptInterface::ExecuteGetGameState`. -/
def ExecuteGetGameState (w : World) (args : List AnyValue) :
    Outcome (ScriptMethodResult × World) :=
  let result := ValidateArgCount args 0 "getGameState"
  if result.success = false then .ret (result, w)
  else
    Outcome.tryCatch
      (.ret (ScriptMethodResult.Success
              (AnyValue.string (if Game.IsAttractMode w.game then "attract" else "game")), w))
      (fun what => .ret (ScriptMethodResult.Error ("取得遊戲狀態失敗: " ++ what), w))

/-- Source function `GameScriptInterface::CallMethod`: the chain of name comparisons inside the outer `try`. -/
def CallMethod (H : Host) (w : World) (methodName : String) (args : List AnyValue) :
    Outcome (ScriptMethodResult × World) :=
  Outcome.tryCatch
    (if methodName = "createCube" then ExecuteCreateCube H w args
     else if methodName = "moveProp" then ExecuteMoveProp H w args
     else if methodName = "getPlayerPosition" then ExecuteGetPlayerPosition H w args
     else if methodName = "executeCommand" then ExecuteJavaScriptCommand H w args
     else if methodName = "executeFile" then ExecuteJavaScriptFile H w args
     else if methodName = "isAttractMode" then ExecuteIsAttractMode w args
     else if methodName = "getGameState" then ExecuteGetGameState w args
     else .ret (ScriptMethodResult.Error ("未知的方法: " ++ methodName), w))
    (fun what => .ret (ScriptMethodResult.Error ("方法執行時發生例外: " ++ what), w))

/-- Source function `GameScriptInterface::GetProperty`; the conditional of string literals is held as a
`const char*`, the result for another name is the empty `std::any`. -/
def GetProperty (w : World) (propertyName : String) : AnyValue :=
  if propertyName = "attractMode" then AnyValue.bool (Game.IsAttractMode w.game)
  else if propertyName = "gameState" then
    AnyValue.cstr (if Game.IsAttractMode w.game then "attract" else "game")
  else AnyValue.empty

/-- Source function `GameScriptInterface::SetProperty`: both parameters are unused. -/
def SetProperty (w : World) (_propertyName : String) (_value : AnyValue) : Bool × World :=
  (false, w)

/-! ## Sample states for the scenarios -/

/-- A host whose numeric conversions keep the value and whose script engine does nothing. -/
def sampleHost : Host :=
  { floatOfDouble := fun q => q
    floatOfInt := fun n => (n : Rat)
    floatToString := fun q => toString q.num ++ "/" ++ toString q.den
    rollRandomIntInRange := fun s lo _ => (lo, s + 1)
    executeScript := fun _ w => (true, w)
    executeScriptFile := fun _ w => (true, w) }

/-- A prop at the given integer coordinates, white. -/
def propAt (x y z : Int) : GameProp :=
  { m_position := { x := x, y := y, z := z }, m_color := { r := 255, g := 255, b := 255, a := 255 } }

/-- A world with the player at (-2, 0, 1), a table of four props, the state `GAME` and a running
script engine. -/
def sampleWorld : World :=
  { game :=
      { m_player := some { m_position := { x := -2, y := 0, z := 1 } }
        m_props := [propAt 2 2 0, propAt (-2) (-2) 0, propAt 10 (-5) 1, propAt 0 0 0]
        m_gameState := eGameState.GAME }
    rng := 0
    v8 := some true }

/-- The world right after `Game::Game()`: the player at (-2, 0, 1), an empty prop table (the
four props spawned by the constructor are members of the game and not entries of `m_props`), the
state `ATTRACT`. -/
def constructedWorld : World :=
  { game :=
      { m_player := some { m_position := { x := -2, y := 0, z := 1 } }
        m_props := []
        m_gameState := eGameState.ATTRACT }
    rng := 0
    v8 := some true }

/-- A world whose prop table has 2^31 entries, one more than the largest `int`. -/
def crowdedWorld : World :=
  { game :=
      { m_player := some { m_position := { x := -2, y := 0, z := 1 } }
        m_props := List.replicate 2147483648 (propAt 0 0 0)
        m_gameState := eGameState.GAME }
    rng := 0
    v8 := some true }

/-! ## The application life cycle (`App.cpp`) -/

/-- What `App::Startup` and `App::Shutdown` order between the game and the scripting subsystem:
whether `g_theGame` points to a live `Game`, whether the scripting subsystem is running, and
whether it holds the binding to the game made by `BindGameObjects`. -/
structure AppState where
  gameAlive : Bool
  v8Running : Bool
  gameBound : Bool
  deriving DecidableEq

/-- The statements of `App::Shutdown`, named in source order. -/
inductive ShutdownStep where
  | releaseGame
  | releaseRNG
  | releaseBitmapFont
  | v8Shutdown
  | lightShutDown
  | audioShutdown
  | inputShutdown
  | devConsoleShutdown
  | releaseDevConsoleCamera
  | debugRenderSystemShutdown
  | rendererShutdown
  | windowShutdown
  | eventSystemShutdown
  | releaseV8Subsystem
  | releaseAudio
  | releaseRenderer
  | releaseWindow
  | releaseInput
  deriving DecidableEq

/-- Source function `App::Shutdown`: its statements in the order of the source. -/
def App.Shutdown : List ShutdownStep :=
  [ ShutdownStep.releaseGame, ShutdownStep.releaseRNG, ShutdownStep.releaseBitmapFont,
    ShutdownStep.v8Shutdown, ShutdownStep.lightShutDown, ShutdownStep.audioShutdown,
    ShutdownStep.inputShutdown, ShutdownStep.devConsoleShutdown,
    ShutdownStep.releaseDevConsoleCamera, ShutdownStep.debugRenderSystemShutdown,
    ShutdownStep.rendererShutdown, ShutdownStep.windowShutdown,
    ShutdownStep.eventSystemShutdown, ShutdownStep.releaseV8Subsystem,
    ShutdownStep.releaseAudio, ShutdownStep.releaseRenderer, ShutdownStep.releaseWindow,
    ShutdownStep.releaseInput ]

/-- Modelled from the spec: the effect of one statement of `App::Shutdown` on the game and the
scripting subsystem.  The macro `GAME_SAFE_RELEASE` (`Game/Framework/GameCommon.hpp`) and
`V8Subsystem::Shutdown` (engine library) are not among the sources: the release deletes the
object and clears the pointer, as `App::DeleteAndCreateNewGame` does by hand, and the shutdown of
the scripting subsystem stops it and removes its bindings (the spec has unbinding happen only in
the shutdown sequence).  The other statements touch neither. -/
def applyShutdownStep (s : AppState) (step : ShutdownStep) : AppState :=
  match step with
  | .releaseGame => { s with gameAlive := false }
  | .v8Shutdown => { s with v8Running := false, gameBound := false }
  | .releaseV8Subsystem => { s with v8Running := false, gameBound := false }
  | _ => s

/-- Source function `App::BindGameToJavaScript`: the game is bound when the scripting subsystem
is initialised and the game exists. -/
def App.BindGameToJavaScript (s : AppState) : AppState :=
  if s.v8Running && s.gameAlive then { s with gameBound := true } else s

/-- The states after each statement of a sequence, in order. -/
def statesAlong (s : AppState) : List ShutdownStep → List AppState
  | [] => []
  | step :: rest => applyShutdownStep s step :: statesAlong (applyShutdownStep s step) rest

/-- The state in which `App::Shutdown` starts after a start-up with a working script engine:
the last two statements of `App::Startup` create the game and bind it. -/
def afterStartup : AppState :=
  App.BindGameToJavaScript { gameAlive := true, v8Running := true, gameBound := false }

/-- No binding dangles: a running scripting subsystem that holds the binding implies a live
game. -/
def AppState.bindingSafe (s : AppState) : Bool :=
  !(s.v8Running && s.gameBound) || s.gameAlive

/-! ## Vocabulary of the statements -/

/-- The names of the method catalogue. -/
def catalogueNames : List String := GetAvailableMethods.map ScriptMethodInfo.name

/-- A value of kind float, double or int. -/
def AnyValue.isNumber (a : AnyValue) : Bool :=
  match a with
  | .float _ => true
  | .double _ => true
  | .int _ => true
  | _ => false

/-- An extraction that ends in a thrown conversion error. -/
def Outcome.isThrown {α : Type} (o : Outcome α) : Bool :=
  match o with
  | .thrown _ => true
  | _ => false

/-- The expected count that the `Execute` method of each catalogue name hands to
`ValidateArgCount`. -/
def expectedArgCounts : List (String × Nat) :=
  [("createCube", 3), ("moveProp", 4), ("getPlayerPosition", 0), ("executeCommand", 1),
    ("executeFile", 1), ("isAttractMode", 0), ("getGameState", 0)]

/-- A call of a catalogue method with the correct number of arguments in which the extractor
that the method applies to some argument throws: `ExtractFloat` on a component of createCube,
`ExtractInt` on the index or `ExtractFloat` on a component of moveProp, `ExtractString` on the
argument of executeCommand or executeFile.  The three methods without parameters extract
nothing. -/
inductive RejectedCall (H : Host) : String → List AnyValue → Prop where
  | createCube (a b c : AnyValue)
      (h : (ExtractFloat H a).isThrown ∨ (ExtractFloat H b).isThrown ∨
        (ExtractFloat H c).isThrown) :
      RejectedCall H "createCube" [a, b, c]
  | moveProp (i a b c : AnyValue)
      (h : (ExtractInt i).isThrown ∨ (ExtractFloat H a).isThrown ∨
        (ExtractFloat H b).isThrown ∨ (ExtractFloat H c).isThrown) :
      RejectedCall H "moveProp" [i, a, b, c]
  | executeCommand (a : AnyValue) (h : (ExtractString a).isThrown) :
      RejectedCall H "executeCommand" [a]
  | executeFile (a : AnyValue) (h : (ExtractString a).isThrown) :
      RejectedCall H "executeFile" [a]

/-- The call came back with one result that is a Success or an Error. -/
def ReturnsResult (o : Outcome (ScriptMethodResult × World)) : Prop :=
  ∃ r w1, o = .ret (r, w1) ∧
    ((∃ v, r = ScriptMethodResult.Success v) ∨ ∃ m, r = ScriptMethodResult.Error m)

/-- The first character of a string, when it has one. -/
def firstChar (s : String) : Option Char := s.data.head?

/-- The result is the error that `ValidateArgCount` builds for the method and the received
argument list, for some expected count. -/
def IsArgCountError (name : String) (args : List AnyValue) (r : ScriptMethodResult) : Prop :=
  ∃ expected : Nat,
    r = ScriptMethodResult.Error
      (name ++ " 需要 " ++ toString expected ++ " 個參數，但收到 " ++ toString args.length ++ " 個")

/-- A result that a method body produces once the argument count was accepted: Success, or an
Error whose message opens with the first character of one of the failure texts of the bodies
(創建立方體失敗, 移動道具失敗, 執行 JavaScript ... 失敗, 玩家物件不存在). -/
def BodyResult (r : ScriptMethodResult) : Prop :=
  r.success = true ∨ firstChar r.errorMessage ∈ [some '創', some '移', some '執', some '玩']

/-- The `what()` text of a throw, nothing for a return. -/
def Outcome.thrownText {α : Type} (o : Outcome α) : Option String :=
  match o with
  | .thrown what => some what
  | _ => none

/-- What the extraction of the argument at position `i` throws, when it throws.  The extractor is
the one the `Execute` method of the name applies to that position: `ExtractFloat` for the three
components of createCube, `ExtractInt` for position 0 and `ExtractFloat` for the components of
moveProp, `ExtractString` for executeCommand and executeFile. -/
def offenceAt (H : Host) (methodName : String) (i : Nat) (a : AnyValue) : Option String :=
  if methodName = "createCube" then (ExtractFloat H a).thrownText
  else if methodName = "moveProp" then
    if i = 0 then (ExtractInt a).thrownText else (ExtractFloat H a).thrownText
  else if methodName = "executeCommand" ∨ methodName = "executeFile" then
    (ExtractString a).thrownText
  else none

/-- The lowest position at or after `i` whose extraction throws, with the thrown text. -/
def firstOffenceFrom (H : Host) (methodName : String) : Nat → List AnyValue → Option (Nat × String)
  | _, [] => none
  | i, a :: rest =>
    match offenceAt H methodName i a with
    | some what => some (i, what)
    | none => firstOffenceFrom H methodName (i + 1) rest

/-- The first offending argument of a call: its position and the text its extractor throws. -/
def firstOffence (H : Host) (methodName : String) (args : List AnyValue) : Option (Nat × String) :=
  firstOffenceFrom H methodName 0 args

/-- The text with which the handler of the `try` block of each method opens its Error. -/
def failureText (methodName : String) : String :=
  if methodName = "createCube" then "創建立方體失敗: "
  else if methodName = "moveProp" then "移動道具失敗: "
  else if methodName = "executeCommand" then "執行 JavaScript 指令失敗: "
  else if methodName = "executeFile" then "執行 JavaScript 檔案失敗: "
  else ""

/-- Truncation toward zero, in the words of the spec: the floor of a non-negative value, the
ceiling of a negative one. -/
def truncTowardZero (q : Rat) : Int :=
  if 0 ≤ q then ⌊q⌋ else ⌈q⌉

/-- Source function `GameScriptInterface::GetProperty` as a step of the object: the member
function is `const`, it yields its value and leaves the world as it was. -/
def readProperty (w : World) (propertyName : String) : AnyValue × World :=
  (GetProperty w propertyName, w)

/-- The kind of a Success payload agrees with a return-type tag of the catalogue: a
`std::string` for the tag string, a `bool` for the tag bool, and for the tag object any value
that is not a string (neither a `std::string` nor a C string). -/
def payloadMatchesTag (tag : String) (v : AnyValue) : Bool :=
  if tag = "string" then
    match v with
    | .string _ => true
    | _ => false
  else if tag = "bool" then
    match v with
    | .bool _ => true
    | _ => false
  else if tag = "object" then
    match v with
    | .string _ => false
    | .cstr _ => false
    | _ => true
  else false

/-! ## Lemmas on the helpers -/

theorem catalogueNames_eq :
    catalogueNames =
      ["createCube", "moveProp", "getPlayerPosition", "executeCommand", "executeFile",
        "isAttractMode", "getGameState"] := rfl

theorem sizeToInt_le (n : Nat) : sizeToInt n ≤ (n : Int) := by
  unfold sizeToInt
  omega

theorem MoveProp_out_of_range (g : Game) (i : Int) (p : Vec3)
    (h : i < 0 ∨ (g.m_props.length : Int) ≤ i) : Game.MoveProp g i p = .ret g := by
  have hle := sizeToInt_le g.m_props.length
  unfold Game.MoveProp
  rw [if_neg]
  omega

theorem ValidateArgCount_of_ne (args : List AnyValue) (n : Nat) (name : String)
    (h : args.length ≠ n) :
    ValidateArgCount args n name =
      ScriptMethodResult.Error
        (name ++ " 需要 " ++ toString n ++ " 個參數，但收到 " ++ toString args.length ++ " 個") := by
  simp [ValidateArgCount, h]

theorem ValidateArgCount_of_eq (args : List AnyValue) (n : Nat) (name : String)
    (h : args.length = n) :
    ValidateArgCount args n name = ScriptMethodResult.Success AnyValue.empty := by
  simp [ValidateArgCount, h]

theorem ExtractVec3_three (H : Host) (a b c : AnyValue) :
    ExtractVec3 H [a, b, c] 0 =
      (ExtractFloat H a).bind fun x =>
      (ExtractFloat H b).bind fun y =>
      (ExtractFloat H c).bind fun z => .ret { x := x, y := y, z := z } := by
  simp [ExtractVec3, sizeAdd, argAt, Outcome.bind]

theorem ExtractVec3_four (H : Host) (i a b c : AnyValue) :
    ExtractVec3 H [i, a, b, c] 1 =
      (ExtractFloat H a).bind fun x =>
      (ExtractFloat H b).bind fun y =>
      (ExtractFloat H c).bind fun z => .ret { x := x, y := y, z := z } := by
  simp [ExtractVec3, sizeAdd, argAt, Outcome.bind]

theorem ExtractFloat_cases (H : Host) (a : AnyValue) :
    (∃ q, ExtractFloat H a = .ret q) ∨ ExtractFloat H a = .thrown "無法轉換為 float 類型" := by
  cases a <;> simp [ExtractFloat]

theorem ExtractInt_cases (a : AnyValue) :
    (∃ n, ExtractInt a = .ret n) ∨ ExtractInt a = .thrown "無法轉換為 int 類型" := by
  cases a <;> simp [ExtractInt]

theorem ExtractString_cases (a : AnyValue) :
    (∃ s, ExtractString a = .ret s) ∨ ExtractString a = .thrown "無法轉換為 string 類型" := by
  cases a <;> simp [ExtractString]

theorem MoveProp_returns (g : Game) (i : Int) (p : Vec3) :
    ∃ g1, Game.MoveProp g i p = .ret g1 := by
  have hle := sizeToInt_le g.m_props.length
  unfold Game.MoveProp
  split
  · rename_i h
    have hlt : i.toNat < g.m_props.length := by omega
    rw [List.get?_eq_get hlt]
    exact ⟨_, rfl⟩
  · exact ⟨g, rfl⟩

theorem CallMethod_createCube (H : Host) (w : World) (args : List AnyValue) :
    CallMethod H w "createCube" args =
      Outcome.tryCatch (ExecuteCreateCube H w args)
        (fun what => .ret (ScriptMethodResult.Error ("方法執行時發生例外: " ++ what), w)) := by
  simp [CallMethod]

theorem CallMethod_moveProp (H : Host) (w : World) (args : List AnyValue) :
    CallMethod H w "moveProp" args =
      Outcome.tryCatch (ExecuteMoveProp H w args)
        (fun what => .ret (ScriptMethodResult.Error ("方法執行時發生例外: " ++ what), w)) := by
  simp [CallMethod]

theorem CallMethod_getPlayerPosition (H : Host) (w : World) (args : List AnyValue) :
    CallMethod H w "getPlayerPosition" args =
      Outcome.tryCatch (ExecuteGetPlayerPosition H w args)
        (fun what => .ret (ScriptMethodResult.Error ("方法執行時發生例外: " ++ what), w)) := by
  simp [CallMethod]

theorem CallMethod_executeCommand (H : Host) (w : World) (args : List AnyValue) :
    CallMethod H w "executeCommand" args =
      Outcome.tryCatch (ExecuteJavaScriptCommand H w args)
        (fun what => .ret (ScriptMethodResult.Error ("方法執行時發生例外: " ++ what), w)) := by
  simp [CallMethod]

theorem CallMethod_executeFile (H : Host) (w : World) (args : List AnyValue) :
    CallMethod H w "executeFile" args =
      Outcome.tryCatch (ExecuteJavaScriptFile H w args)
        (fun what => .ret (ScriptMethodResult.Error ("方法執行時發生例外: " ++ what), w)) := by
  simp [CallMethod]

theorem CallMethod_isAttractMode (H : Host) (w : World) (args : List AnyValue) :
    CallMethod H w "isAttractMode" args =
      Outcome.tryCatch (ExecuteIsAttractMode w args)
        (fun what => .ret (ScriptMethodResult.Error ("方法執行時發生例外: " ++ what), w)) := by
  simp [CallMethod]

theorem CallMethod_getGameState (H : Host) (w : World) (args : List AnyValue) :
    CallMethod H w "getGameState" args =
      Outcome.tryCatch (ExecuteGetGameState w args)
        (fun what => .ret (ScriptMethodResult.Error ("方法執行時發生例外: " ++ what), w)) := by
  simp [CallMethod]

theorem expectedArgCounts_cases (name : String) (n : Nat) (h : (name, n) ∈ expectedArgCounts) :
    (name = "createCube" ∧ n = 3) ∨ (name = "moveProp" ∧ n = 4) ∨
      (name = "getPlayerPosition" ∧ n = 0) ∨ (name = "executeCommand" ∧ n = 1) ∨
      (name = "executeFile" ∧ n = 1) ∨ (name = "isAttractMode" ∧ n = 0) ∨
      (name = "getGameState" ∧ n = 0) := by
  simpa [expectedArgCounts] using h

theorem CallMethod_wrong_count (H : Host) (w : World) (name : String) (n : Nat)
    (args : List AnyValue) (hcat : (name, n) ∈ expectedArgCounts) (hlen : args.length ≠ n) :
    CallMethod H w name args = .ret (ValidateArgCount args n name, w) := by
  have hv := ValidateArgCount_of_ne args n name hlen
  rcases expectedArgCounts_cases name n hcat with h | h | h | h | h | h | h <;>
    obtain ⟨rfl, rfl⟩ := h
  · rw [CallMethod_createCube]; simp [ExecuteCreateCube, hv, ScriptMethodResult.Error, Outcome.tryCatch]
  · rw [CallMethod_moveProp]; simp [ExecuteMoveProp, hv, ScriptMethodResult.Error, Outcome.tryCatch]
  · rw [CallMethod_getPlayerPosition]
    simp [ExecuteGetPlayerPosition, hv, ScriptMethodResult.Error, Outcome.tryCatch]
  · rw [CallMethod_executeCommand]
    simp [ExecuteJavaScriptCommand, hv, ScriptMethodResult.Error, Outcome.tryCatch]
  · rw [CallMethod_executeFile]
    simp [ExecuteJavaScriptFile, hv, ScriptMethodResult.Error, Outcome.tryCatch]
  · rw [CallMethod_isAttractMode]
    simp [ExecuteIsAttractMode, hv, ScriptMethodResult.Error, Outcome.tryCatch]
  · rw [CallMethod_getGameState]
    simp [ExecuteGetGameState, hv, ScriptMethodResult.Error, Outcome.tryCatch]

theorem Success_success (v : AnyValue) : (ScriptMethodResult.Success v).success = true := rfl

theorem Error_success (m : String) : (ScriptMethodResult.Error m).success = false := rfl

theorem length_eq_four {α : Type} (l : List α) (h : l.length = 4) :
    ∃ a b c d, l = [a, b, c, d] := by
  match l, h with
  | [a, b, c, d], _ => exact ⟨a, b, c, d, rfl⟩

theorem ExecuteCreateCube_three (H : Host) (w : World) (a b c : AnyValue) :
    ExecuteCreateCube H w [a, b, c] =
      Outcome.tryCatch
        ((ExtractFloat H a).bind fun x =>
          (ExtractFloat H b).bind fun y =>
          (ExtractFloat H c).bind fun z =>
          .ret (ScriptMethodResult.Success (AnyValue.string
                  ("立方體創建成功，位置: (" ++ H.floatToString x ++ ", " ++
                    H.floatToString y ++ ", " ++ H.floatToString z ++ ")")),
                Game.CreateCube H w { x := x, y := y, z := z }))
        (fun what => .ret (ScriptMethodResult.Error ("創建立方體失敗: " ++ what), w)) := by
  simp only [ExecuteCreateCube, ExtractVec3_three]
  rcases ExtractFloat_cases H a with ⟨x, hx⟩ | hx <;>
    rcases ExtractFloat_cases H b with ⟨y, hy⟩ | hy <;>
    rcases ExtractFloat_cases H c with ⟨z, hz⟩ | hz <;>
    simp [hx, hy, hz, ValidateArgCount, Success_success, Outcome.bind]

theorem ExecuteMoveProp_four (H : Host) (w : World) (i a b c : AnyValue) :
    ExecuteMoveProp H w [i, a, b, c] =
      Outcome.tryCatch
        ((ExtractInt i).bind fun propIndex =>
          (ExtractFloat H a).bind fun x =>
          (ExtractFloat H b).bind fun y =>
          (ExtractFloat H c).bind fun z =>
          (Game.MoveProp w.game propIndex { x := x, y := y, z := z }).bind fun g =>
          .ret (ScriptMethodResult.Success (AnyValue.string
                  ("道具 " ++ toString propIndex ++ " 移動成功，新位置: (" ++
                    H.floatToString x ++ ", " ++ H.floatToString y ++ ", " ++
                    H.floatToString z ++ ")")),
                { w with game := g }))
        (fun what => .ret (ScriptMethodResult.Error ("移動道具失敗: " ++ what), w)) := by
  simp only [ExecuteMoveProp, ExtractVec3_four]
  rcases ExtractInt_cases i with ⟨n, hn⟩ | hn <;>
    rcases ExtractFloat_cases H a with ⟨x, hx⟩ | hx <;>
    rcases ExtractFloat_cases H b with ⟨y, hy⟩ | hy <;>
    rcases ExtractFloat_cases H c with ⟨z, hz⟩ | hz <;>
    simp [hn, hx, hy, hz, argAt, ValidateArgCount, Success_success, Outcome.bind]

theorem ExecuteGetPlayerPosition_nil (H : Host) (w : World) :
    ExecuteGetPlayerPosition H w [] =
      match w.game.m_player with
      | none => .ret (ScriptMethodResult.Error "玩家物件不存在", w)
      | some _ =>
        .ret (ScriptMethodResult.Success (AnyValue.string
                ("\x7b x: " ++ H.floatToString 0 ++ ", y: " ++ H.floatToString 0 ++
                  ", z: " ++ H.floatToString 0 ++ " \x7d")), w) := by
  cases hp : w.game.m_player <;>
    simp [ExecuteGetPlayerPosition, Game.GetPlayer, hp, ValidateArgCount, Success_success,
      Outcome.tryCatch]

theorem ExecuteJavaScriptCommand_one (H : Host) (w : World) (a : AnyValue) :
    ExecuteJavaScriptCommand H w [a] =
      Outcome.tryCatch
        ((ExtractString a).bind fun command =>
          .ret (ScriptMethodResult.Success (AnyValue.string ("指令執行: " ++ command)),
                Game.ExecuteJavaScriptCommand H w command))
        (fun what =>
          .ret (ScriptMethodResult.Error ("執行 JavaScript 指令失敗: " ++ what), w)) := by
  simp [ExecuteJavaScriptCommand, argAt, ValidateArgCount, Success_success, Outcome.bind]

theorem ExecuteJavaScriptFile_one (H : Host) (w : World) (a : AnyValue) :
    ExecuteJavaScriptFile H w [a] =
      Outcome.tryCatch
        ((ExtractString a).bind fun filename =>
          .ret (ScriptMethodResult.Success (AnyValue.string ("檔案執行: " ++ filename)),
                Game.ExecuteJavaScriptFile H w filename))
        (fun what =>
          .ret (ScriptMethodResult.Error ("執行 JavaScript 檔案失敗: " ++ what), w)) := by
  simp [ExecuteJavaScriptFile, argAt, ValidateArgCount, Success_success, Outcome.bind]

theorem ExecuteIsAttractMode_nil (w : World) :
    ExecuteIsAttractMode w [] =
      .ret (ScriptMethodResult.Success (AnyValue.bool (Game.IsAttractMode w.game)), w) := by
  simp [ExecuteIsAttractMode, ValidateArgCount, Success_success, Outcome.tryCatch]

theorem ExecuteGetGameState_nil (w : World) :
    ExecuteGetGameState w [] =
      .ret (ScriptMethodResult.Success
              (AnyValue.string (if Game.IsAttractMode w.game then "attract" else "game")), w) := by
  simp [ExecuteGetGameState, ValidateArgCount, Success_success, Outcome.tryCatch]

theorem CallMethod_unknown (H : Host) (w : World) (name : String) (args : List AnyValue)
    (h : name ∉ catalogueNames) :
    CallMethod H w name args = .ret (ScriptMethodResult.Error ("未知的方法: " ++ name), w) := by
  simp only [catalogueNames_eq, List.mem_cons, List.mem_singleton, not_or, List.mem_nil_iff,
    or_false] at h
  obtain ⟨h1, h2, h3, h4, h5, h6, h7⟩ := h
  simp [CallMethod, h1, h2, h3, h4, h5, h6, h7, Outcome.tryCatch]

theorem returnsResult_success (v : AnyValue) (w : World) :
    ReturnsResult (.ret (ScriptMethodResult.Success v, w)) :=
  ⟨_, _, rfl, Or.inl ⟨_, rfl⟩⟩

theorem returnsResult_error (m : String) (w : World) :
    ReturnsResult (.ret (ScriptMethodResult.Error m, w)) :=
  ⟨_, _, rfl, Or.inr ⟨_, rfl⟩⟩

theorem returnsResult_wrong_count (H : Host) (w : World) (name : String) (n : Nat)
    (args : List AnyValue) (hcat : (name, n) ∈ expectedArgCounts) (hlen : args.length ≠ n) :
    ReturnsResult (CallMethod H w name args) := by
  rw [CallMethod_wrong_count H w name n args hcat hlen, ValidateArgCount_of_ne args n name hlen]
  exact returnsResult_error _ _

theorem returnsResult_createCube (H : Host) (w : World) (args : List AnyValue) :
    ReturnsResult (CallMethod H w "createCube" args) := by
  by_cases hlen : args.length = 3
  · obtain ⟨a, b, c, rfl⟩ := List.length_eq_three.mp hlen
    rw [CallMethod_createCube, ExecuteCreateCube_three]
    rcases ExtractFloat_cases H a with ⟨x, hx⟩ | hx <;>
      rcases ExtractFloat_cases H b with ⟨y, hy⟩ | hy <;>
      rcases ExtractFloat_cases H c with ⟨z, hz⟩ | hz <;>
      simp only [hx, hy, hz, Outcome.bind, Outcome.tryCatch] <;>
      first
        | exact returnsResult_success _ _
        | exact returnsResult_error _ _
  · exact returnsResult_wrong_count H w "createCube" 3 args (by decide) hlen

theorem returnsResult_moveProp (H : Host) (w : World) (args : List AnyValue) :
    ReturnsResult (CallMethod H w "moveProp" args) := by
  by_cases hlen : args.length = 4
  · obtain ⟨i, a, b, c, rfl⟩ := length_eq_four args hlen
    rw [CallMethod_moveProp, ExecuteMoveProp_four]
    rcases ExtractInt_cases i with ⟨n, hn⟩ | hn <;>
      rcases ExtractFloat_cases H a with ⟨x, hx⟩ | hx <;>
      rcases ExtractFloat_cases H b with ⟨y, hy⟩ | hy <;>
      rcases ExtractFloat_cases H c with ⟨z, hz⟩ | hz <;>
      simp only [hn, hx, hy, hz, Outcome.bind, Outcome.tryCatch] <;>
      first
        | exact returnsResult_error _ _
        | (obtain ⟨g1, hg⟩ := MoveProp_returns w.game n { x := x, y := y, z := z }
           simp only [hg]
           exact returnsResult_success _ _)
  · exact returnsResult_wrong_count H w "moveProp" 4 args (by decide) hlen

theorem returnsResult_getPlayerPosition (H : Host) (w : World) (args : List AnyValue) :
    ReturnsResult (CallMethod H w "getPlayerPosition" args) := by
  by_cases hlen : args.length = 0
  · obtain rfl := List.length_eq_zero.mp hlen
    rw [CallMethod_getPlayerPosition, ExecuteGetPlayerPosition_nil]
    cases w.game.m_player <;> simp only [Outcome.tryCatch]
    · exact returnsResult_error _ _
    · exact returnsResult_success _ _
  · exact returnsResult_wrong_count H w "getPlayerPosition" 0 args (by decide) hlen

theorem returnsResult_executeCommand (H : Host) (w : World) (args : List AnyValue) :
    ReturnsResult (CallMethod H w "executeCommand" args) := by
  by_cases hlen : args.length = 1
  · obtain ⟨a, rfl⟩ := List.length_eq_one.mp hlen
    rw [CallMethod_executeCommand, ExecuteJavaScriptCommand_one]
    rcases ExtractString_cases a with ⟨s, hs⟩ | hs <;>
      simp only [hs, Outcome.bind, Outcome.tryCatch]
    · exact returnsResult_success _ _
    · exact returnsResult_error _ _
  · exact returnsResult_wrong_count H w "executeCommand" 1 args (by decide) hlen

theorem returnsResult_executeFile (H : Host) (w : World) (args : List AnyValue) :
    ReturnsResult (CallMethod H w "executeFile" args) := by
  by_cases hlen : args.length = 1
  · obtain ⟨a, rfl⟩ := List.length_eq_one.mp hlen
    rw [CallMethod_executeFile, ExecuteJavaScriptFile_one]
    rcases ExtractString_cases a with ⟨s, hs⟩ | hs <;>
      simp only [hs, Outcome.bind, Outcome.tryCatch]
    · exact returnsResult_success _ _
    · exact returnsResult_error _ _
  · exact returnsResult_wrong_count H w "executeFile" 1 args (by decide) hlen

theorem returnsResult_isAttractMode (H : Host) (w : World) (args : List AnyValue) :
    ReturnsResult (CallMethod H w "isAttractMode" args) := by
  by_cases hlen : args.length = 0
  · obtain rfl := List.length_eq_zero.mp hlen
    rw [CallMethod_isAttractMode, ExecuteIsAttractMode_nil]
    exact returnsResult_success _ _
  · exact returnsResult_wrong_count H w "isAttractMode" 0 args (by decide) hlen

theorem returnsResult_getGameState (H : Host) (w : World) (args : List AnyValue) :
    ReturnsResult (CallMethod H w "getGameState" args) := by
  by_cases hlen : args.length = 0
  · obtain rfl := List.length_eq_zero.mp hlen
    rw [CallMethod_getGameState, ExecuteGetGameState_nil]
    exact returnsResult_success _ _
  · exact returnsResult_wrong_count H w "getGameState" 0 args (by decide) hlen

theorem ExtractFloat_of_isNumber (H : Host) (a : AnyValue) (h : a.isNumber = true) :
    ∃ q, ExtractFloat H a = .ret q := by
  cases a <;> simp [AnyValue.isNumber] at h <;> simp [ExtractFloat]

theorem bodyResult_success (v : AnyValue) : BodyResult (ScriptMethodResult.Success v) :=
  Or.inl rfl

theorem CallMethod_exact_count (H : Host) (w : World) (name : String) (n : Nat)
    (args : List AnyValue) (hcat : (name, n) ∈ expectedArgCounts) (hlen : args.length = n) :
    ∃ r w1, CallMethod H w name args = .ret (r, w1) ∧ BodyResult r := by
  rcases expectedArgCounts_cases name n hcat with h | h | h | h | h | h | h <;>
    obtain ⟨rfl, rfl⟩ := h
  · obtain ⟨a, b, c, rfl⟩ := List.length_eq_three.mp hlen
    rw [CallMethod_createCube, ExecuteCreateCube_three]
    rcases ExtractFloat_cases H a with ⟨x, hx⟩ | hx <;>
      rcases ExtractFloat_cases H b with ⟨y, hy⟩ | hy <;>
      rcases ExtractFloat_cases H c with ⟨z, hz⟩ | hz <;>
      simp only [hx, hy, hz, Outcome.bind, Outcome.tryCatch] <;>
      first
        | exact ⟨_, _, rfl, bodyResult_success _⟩
        | exact ⟨_, _, rfl, Or.inr (by simp [firstChar, ScriptMethodResult.Error])⟩
  · obtain ⟨i, a, b, c, rfl⟩ := length_eq_four args hlen
    rw [CallMethod_moveProp, ExecuteMoveProp_four]
    rcases ExtractInt_cases i with ⟨k, hk⟩ | hk <;>
      rcases ExtractFloat_cases H a with ⟨x, hx⟩ | hx <;>
      rcases ExtractFloat_cases H b with ⟨y, hy⟩ | hy <;>
      rcases ExtractFloat_cases H c with ⟨z, hz⟩ | hz <;>
      simp only [hk, hx, hy, hz, Outcome.bind, Outcome.tryCatch] <;>
      first
        | exact ⟨_, _, rfl, Or.inr (by simp [firstChar, ScriptMethodResult.Error])⟩
        | (obtain ⟨g1, hg⟩ := MoveProp_returns w.game k { x := x, y := y, z := z }
           simp only [hg]
           exact ⟨_, _, rfl, bodyResult_success _⟩)
  · obtain rfl := List.length_eq_zero.mp hlen
    rw [CallMethod_getPlayerPosition, ExecuteGetPlayerPosition_nil]
    cases w.game.m_player <;> simp only [Outcome.tryCatch]
    · exact ⟨_, _, rfl, Or.inr (by simp [firstChar, ScriptMethodResult.Error])⟩
    · exact ⟨_, _, rfl, bodyResult_success _⟩
  · obtain ⟨a, rfl⟩ := List.length_eq_one.mp hlen
    rw [CallMethod_executeCommand, ExecuteJavaScriptCommand_one]
    rcases ExtractString_cases a with ⟨t, ht⟩ | ht <;>
      simp only [ht, Outcome.bind, Outcome.tryCatch]
    · exact ⟨_, _, rfl, bodyResult_success _⟩
    · exact ⟨_, _, rfl, Or.inr (by simp [firstChar, ScriptMethodResult.Error])⟩
  · obtain ⟨a, rfl⟩ := List.length_eq_one.mp hlen
    rw [CallMethod_executeFile, ExecuteJavaScriptFile_one]
    rcases ExtractString_cases a with ⟨t, ht⟩ | ht <;>
      simp only [ht, Outcome.bind, Outcome.tryCatch]
    · exact ⟨_, _, rfl, bodyResult_success _⟩
    · exact ⟨_, _, rfl, Or.inr (by simp [firstChar, ScriptMethodResult.Error])⟩
  · obtain rfl := List.length_eq_zero.mp hlen
    rw [CallMethod_isAttractMode, ExecuteIsAttractMode_nil]
    exact ⟨_, _, rfl, bodyResult_success _⟩
  · obtain rfl := List.length_eq_zero.mp hlen
    rw [CallMethod_getGameState, ExecuteGetGameState_nil]
    exact ⟨_, _, rfl, bodyResult_success _⟩

theorem argCountError_not_bodyResult (name : String) (n : Nat) (args : List AnyValue)
    (r : ScriptMethodResult) (hcat : (name, n) ∈ expectedArgCounts)
    (h : IsArgCountError name args r) : ¬ BodyResult r := by
  obtain ⟨e, rfl⟩ := h
  rcases expectedArgCounts_cases name n hcat with h | h | h | h | h | h | h <;>
    obtain ⟨rfl, rfl⟩ := h <;>
    simp [BodyResult, firstChar, ScriptMethodResult.Error]

theorem unknownError_not_bodyResult (name : String) :
    ¬ BodyResult (ScriptMethodResult.Error ("未知的方法: " ++ name)) := by
  simp [BodyResult, firstChar, ScriptMethodResult.Error]

theorem unknownError_ne_argCountError (name : String) (n : Nat) (args : List AnyValue)
    (hcat : (name, n) ∈ expectedArgCounts) :
    ¬ IsArgCountError name args (ScriptMethodResult.Error ("未知的方法: " ++ name)) := by
  rintro ⟨e, he⟩
  have h2 := congrArg (fun r => firstChar r.errorMessage) he
  rcases expectedArgCounts_cases name n hcat with h | h | h | h | h | h | h <;>
    obtain ⟨rfl, rfl⟩ := h <;>
    simp [firstChar, ScriptMethodResult.Error] at h2

theorem descriptor_in_expectedArgCounts (d : ScriptMethodInfo) (hd : d ∈ GetAvailableMethods) :
    (d.name, d.parameterTypes.length) ∈ expectedArgCounts := by
  simp only [GetAvailableMethods, List.mem_cons, List.mem_singleton, List.mem_nil_iff,
    or_false] at hd
  rcases hd with rfl | rfl | rfl | rfl | rfl | rfl | rfl <;> decide

theorem catalogueName_has_count (name : String) (h : name ∈ catalogueNames) :
    ∃ n, (name, n) ∈ expectedArgCounts := by
  simp only [catalogueNames_eq, List.mem_cons, List.mem_singleton, List.mem_nil_iff,
    or_false] at h
  rcases h with rfl | rfl | rfl | rfl | rfl | rfl | rfl
  · exact ⟨3, by decide⟩
  · exact ⟨4, by decide⟩
  · exact ⟨0, by decide⟩
  · exact ⟨1, by decide⟩
  · exact ⟨1, by decide⟩
  · exact ⟨0, by decide⟩
  · exact ⟨0, by decide⟩

theorem tdiv_eq_truncTowardZero (q : Rat) : Int.tdiv q.num q.den = truncTowardZero q := by
  unfold truncTowardZero
  have hden : (0 : Int) ≤ q.den := Int.natCast_nonneg _
  by_cases h : 0 ≤ q
  · rw [if_pos h, Rat.floor_def, Int.tdiv_eq_ediv (Rat.num_nonneg.mpr h) hden]
  · rw [if_neg h]
    have hneg : 0 ≤ -q := by linarith
    have hnum : 0 ≤ (-q).num := Rat.num_nonneg.mpr hneg
    have hc : ⌈q⌉ = -⌊-q⌋ := by rw [Int.floor_neg, neg_neg]
    rw [hc, Rat.floor_def, Rat.neg_num, Rat.neg_den]
    rw [Rat.neg_num] at hnum
    rw [← Int.tdiv_eq_ediv hnum hden, Int.neg_tdiv, neg_neg]

theorem truncToInt_of_fits (q : Rat)
    (h : -2147483648 ≤ truncTowardZero q ∧ truncTowardZero q ≤ 2147483647) :
    truncToInt q = truncTowardZero q := by
  unfold truncToInt
  simp only [tdiv_eq_truncTowardZero]
  rw [if_pos h]

theorem truncTowardZero_2_9 : truncTowardZero 2.9 = 2 := by
  unfold truncTowardZero
  norm_num [Int.floor_eq_iff]

theorem truncTowardZero_neg_2_9 : truncTowardZero (-2.9) = -2 := by
  unfold truncTowardZero
  norm_num [Int.ceil_eq_iff]

theorem sizeAdd_small (k m : Nat) (h : k + m < 18446744073709551616) : sizeAdd k m = k + m := by
  unfold sizeAdd
  exact Nat.mod_eq_of_lt h

theorem ExtractVec3_short (H : Host) (args : List AnyValue) (k : Nat)
    (hsize : args.length ≤ 9223372036854775807) (hk : k ≤ args.length)
    (hshort : args.length - k < 3) :
    ExtractVec3 H args k = .thrown "Vec3 需要 3 個參數 (x, y, z)" := by
  unfold ExtractVec3
  rw [sizeAdd_small k 2 (by omega), if_pos (by omega)]

theorem ExtractVec3_at (H : Host) (args : List AnyValue) (k : Nat) (a b c : AnyValue)
    (hsize : args.length ≤ 9223372036854775807)
    (ha : args.get? k = some a) (hb : args.get? (k + 1) = some b)
    (hc : args.get? (k + 2) = some c) :
    ExtractVec3 H args k =
      (ExtractFloat H a).bind fun x =>
      (ExtractFloat H b).bind fun y =>
      (ExtractFloat H c).bind fun z => .ret { x := x, y := y, z := z } := by
  have hlt : k + 2 < args.length := by
    by_contra hge
    rw [List.get?_eq_none.mpr (by omega)] at hc
    cases hc
  unfold ExtractVec3
  rw [sizeAdd_small k 2 (by omega), sizeAdd_small k 1 (by omega), if_neg (by omega)]
  simp only [argAt, ha, hb, hc, Outcome.bind]

theorem sizeToInt_of_fits (n : Nat) (h : n ≤ 2147483647) : sizeToInt n = (n : Int) := by
  unfold sizeToInt
  omega

theorem MoveProp_in_range (g : Game) (i : Int) (p : Vec3) (old : GameProp)
    (hsize : g.m_props.length ≤ 2147483647) (hi : 0 ≤ i ∧ i < (g.m_props.length : Int))
    (hold : g.m_props.get? i.toNat = some old) :
    Game.MoveProp g i p =
      .ret { g with m_props := g.m_props.set i.toNat { old with m_position := p } } := by
  unfold Game.MoveProp
  rw [sizeToInt_of_fits _ hsize, if_pos ⟨hi.1, hi.2⟩]
  simp only [hold]

theorem Outcome.bind_ret {α β : Type} (a : α) (next : α → Outcome β) :
    (Outcome.ret a).bind next = next a := by
  rw [Outcome.bind]

theorem Outcome.tryCatch_ret {α : Type} (a : α) (handler : String → Outcome α) :
    (Outcome.ret a).tryCatch handler = .ret a := by
  rw [Outcome.tryCatch]

theorem World.with_own_game (w : World) : { w with game := w.game } = w := by
  cases w
  rfl

theorem sizeToInt_two_pow_31 : sizeToInt 2147483648 = -2147483648 := by
  unfold sizeToInt
  norm_num

theorem crowdedWorld_length : crowdedWorld.game.m_props.length = 2147483648 :=
  List.length_replicate 2147483648 (propAt 0 0 0)

theorem crowdedWorld_first : crowdedWorld.game.m_props.get? 0 = some (propAt 0 0 0) := by
  show (List.replicate 2147483648 (propAt 0 0 0)).get? 0 = some (propAt 0 0 0)
  rw [List.get?_eq_getElem?, List.getElem?_replicate, if_pos (by norm_num)]

theorem MoveProp_crowded (i : Int) (p : Vec3) (hi : 0 ≤ i) :
    Game.MoveProp crowdedWorld.game i p = .ret crowdedWorld.game := by
  unfold Game.MoveProp
  rw [crowdedWorld_length, sizeToInt_two_pow_31, if_neg (by omega)]

theorem CallMethod_payload_kind (H : Host) (w : World) (name : String) (n : Nat)
    (args : List AnyValue) (hcat : (name, n) ∈ expectedArgCounts) :
    ∃ r w1, CallMethod H w name args = .ret (r, w1) ∧
      ((∃ m, r = ScriptMethodResult.Error m) ∨
        (∃ b, name = "isAttractMode" ∧ r = ScriptMethodResult.Success (AnyValue.bool b)) ∨
        (∃ t, name ≠ "isAttractMode" ∧ r = ScriptMethodResult.Success (AnyValue.string t))) := by
  by_cases hlen : args.length = n
  · rcases expectedArgCounts_cases name n hcat with h | h | h | h | h | h | h <;>
      obtain ⟨rfl, rfl⟩ := h
    · obtain ⟨a, b, c, rfl⟩ := List.length_eq_three.mp hlen
      rw [CallMethod_createCube, ExecuteCreateCube_three]
      rcases ExtractFloat_cases H a with ⟨x, hx⟩ | hx <;>
        rcases ExtractFloat_cases H b with ⟨y, hy⟩ | hy <;>
        rcases ExtractFloat_cases H c with ⟨z, hz⟩ | hz <;>
        simp only [hx, hy, hz, Outcome.bind, Outcome.tryCatch] <;>
        first
          | exact ⟨_, _, rfl, Or.inr (Or.inr ⟨_, by decide, rfl⟩)⟩
          | exact ⟨_, _, rfl, Or.inl ⟨_, rfl⟩⟩
    · obtain ⟨i, a, b, c, rfl⟩ := length_eq_four args hlen
      rw [CallMethod_moveProp, ExecuteMoveProp_four]
      rcases ExtractInt_cases i with ⟨k, hk⟩ | hk <;>
        rcases ExtractFloat_cases H a with ⟨x, hx⟩ | hx <;>
        rcases ExtractFloat_cases H b with ⟨y, hy⟩ | hy <;>
        rcases ExtractFloat_cases H c with ⟨z, hz⟩ | hz <;>
        simp only [hk, hx, hy, hz, Outcome.bind, Outcome.tryCatch] <;>
        first
          | exact ⟨_, _, rfl, Or.inl ⟨_, rfl⟩⟩
          | (obtain ⟨g1, hg⟩ := MoveProp_returns w.game k { x := x, y := y, z := z }
             simp only [hg]
             exact ⟨_, _, rfl, Or.inr (Or.inr ⟨_, by decide, rfl⟩)⟩)
    · obtain rfl := List.length_eq_zero.mp hlen
      rw [CallMethod_getPlayerPosition, ExecuteGetPlayerPosition_nil]
      cases w.game.m_player <;> simp only [Outcome.tryCatch]
      · exact ⟨_, _, rfl, Or.inl ⟨_, rfl⟩⟩
      · exact ⟨_, _, rfl, Or.inr (Or.inr ⟨_, by decide, rfl⟩)⟩
    · obtain ⟨a, rfl⟩ := List.length_eq_one.mp hlen
      rw [CallMethod_executeCommand, ExecuteJavaScriptCommand_one]
      rcases ExtractString_cases a with ⟨t, ht⟩ | ht <;>
        simp only [ht, Outcome.bind, Outcome.tryCatch]
      · exact ⟨_, _, rfl, Or.inr (Or.inr ⟨_, by decide, rfl⟩)⟩
      · exact ⟨_, _, rfl, Or.inl ⟨_, rfl⟩⟩
    · obtain ⟨a, rfl⟩ := List.length_eq_one.mp hlen
      rw [CallMethod_executeFile, ExecuteJavaScriptFile_one]
      rcases ExtractString_cases a with ⟨t, ht⟩ | ht <;>
        simp only [ht, Outcome.bind, Outcome.tryCatch]
      · exact ⟨_, _, rfl, Or.inr (Or.inr ⟨_, by decide, rfl⟩)⟩
      · exact ⟨_, _, rfl, Or.inl ⟨_, rfl⟩⟩
    · obtain rfl := List.length_eq_zero.mp hlen
      rw [CallMethod_isAttractMode, ExecuteIsAttractMode_nil]
      exact ⟨_, _, rfl, Or.inr (Or.inl ⟨_, rfl, rfl⟩)⟩
    · obtain rfl := List.length_eq_zero.mp hlen
      rw [CallMethod_getGameState, ExecuteGetGameState_nil]
      exact ⟨_, _, rfl, Or.inr (Or.inr ⟨_, by decide, rfl⟩)⟩
  · rw [CallMethod_wrong_count H w name n args hcat hlen, ValidateArgCount_of_ne args n name hlen]
    exact ⟨_, _, rfl, Or.inl ⟨_, rfl⟩⟩

theorem returnType_bool_iff (d : ScriptMethodInfo) (hd : d ∈ GetAvailableMethods) :
    d.returnType = "bool" ↔ d.name = "isAttractMode" := by
  simp only [GetAvailableMethods, List.mem_cons, List.mem_singleton, List.mem_nil_iff,
    or_false] at hd
  rcases hd with rfl | rfl | rfl | rfl | rfl | rfl | rfl <;> decide

theorem returnsResult_callMethod (H : Host) (w : World) (methodName : String)
    (args : List AnyValue) : ReturnsResult (CallMethod H w methodName args) := by
  by_cases hcat : methodName ∈ catalogueNames
  · simp only [catalogueNames_eq, List.mem_cons, List.mem_singleton, List.mem_nil_iff,
      or_false] at hcat
    rcases hcat with rfl | rfl | rfl | rfl | rfl | rfl | rfl
    · exact returnsResult_createCube H w args
    · exact returnsResult_moveProp H w args
    · exact returnsResult_getPlayerPosition H w args
    · exact returnsResult_executeCommand H w args
    · exact returnsResult_executeFile H w args
    · exact returnsResult_isAttractMode H w args
    · exact returnsResult_getGameState H w args
  · rw [CallMethod_unknown H w methodName args hcat]
    exact returnsResult_error _ _

theorem createCube_vec3_throw (H : Host) (w : World) (a b c : AnyValue) (what : String)
    (h : ExtractVec3 H [a, b, c] 0 = .thrown what) :
    CallMethod H w "createCube" [a, b, c] =
      .ret (ScriptMethodResult.Error ("創建立方體失敗: " ++ what), w) := by
  rw [CallMethod_createCube]
  simp only [ExecuteCreateCube, ValidateArgCount, h, Outcome.bind, Outcome.tryCatch,
    Success_success, List.length_cons, List.length_nil, ne_eq, not_true_eq_false, if_false,
    Bool.true_eq_false, zero_add, Nat.reduceAdd]

theorem moveProp_index_throw (H : Host) (w : World) (i a b c : AnyValue) (what : String)
    (h : ExtractInt i = .thrown what) :
    CallMethod H w "moveProp" [i, a, b, c] =
      .ret (ScriptMethodResult.Error ("移動道具失敗: " ++ what), w) := by
  rw [CallMethod_moveProp, ExecuteMoveProp_four]
  simp only [h, Outcome.bind, Outcome.tryCatch]

theorem moveProp_vec3_throw (H : Host) (w : World) (i a b c : AnyValue) (n : Int)
    (what : String) (hi : ExtractInt i = .ret n)
    (h : ExtractVec3 H [i, a, b, c] 1 = .thrown what) :
    CallMethod H w "moveProp" [i, a, b, c] =
      .ret (ScriptMethodResult.Error ("移動道具失敗: " ++ what), w) := by
  rw [CallMethod_moveProp]
  simp only [ExecuteMoveProp, ValidateArgCount, argAt, List.get?, hi, h, Outcome.bind,
    Outcome.tryCatch, Success_success, List.length_cons, List.length_nil, ne_eq,
    not_true_eq_false, if_false, Bool.true_eq_false, zero_add, Nat.reduceAdd]

theorem executeCommand_string_throw (H : Host) (w : World) (a : AnyValue) (what : String)
    (h : ExtractString a = .thrown what) :
    CallMethod H w "executeCommand" [a] =
      .ret (ScriptMethodResult.Error ("執行 JavaScript 指令失敗: " ++ what), w) := by
  rw [CallMethod_executeCommand, ExecuteJavaScriptCommand_one]
  simp only [h, Outcome.bind, Outcome.tryCatch]

theorem executeFile_string_throw (H : Host) (w : World) (a : AnyValue) (what : String)
    (h : ExtractString a = .thrown what) :
    CallMethod H w "executeFile" [a] =
      .ret (ScriptMethodResult.Error ("執行 JavaScript 檔案失敗: " ++ what), w) := by
  rw [CallMethod_executeFile, ExecuteJavaScriptFile_one]
  simp only [h, Outcome.bind, Outcome.tryCatch]

theorem createCube_float_throw (H : Host) (w : World) (a b c : AnyValue)
    (h : (ExtractFloat H a).isThrown = true ∨ (ExtractFloat H b).isThrown = true ∨
      (ExtractFloat H c).isThrown = true) :
    CallMethod H w "createCube" [a, b, c] =
      .ret (ScriptMethodResult.Error ("創建立方體失敗: " ++ "無法轉換為 float 類型"), w) := by
  apply createCube_vec3_throw
  rw [ExtractVec3_three]
  rcases ExtractFloat_cases H a with ⟨x, hx⟩ | hx <;>
    rcases ExtractFloat_cases H b with ⟨y, hy⟩ | hy <;>
    rcases ExtractFloat_cases H c with ⟨z, hz⟩ | hz <;>
    simp [hx, hy, hz, Outcome.isThrown] at h <;>
    simp only [hx, hy, hz, Outcome.bind]

theorem moveProp_float_throw (H : Host) (w : World) (i a b c : AnyValue) (n : Int)
    (hi : ExtractInt i = .ret n)
    (h : (ExtractFloat H a).isThrown = true ∨ (ExtractFloat H b).isThrown = true ∨
      (ExtractFloat H c).isThrown = true) :
    CallMethod H w "moveProp" [i, a, b, c] =
      .ret (ScriptMethodResult.Error ("移動道具失敗: " ++ "無法轉換為 float 類型"), w) := by
  apply moveProp_vec3_throw H w i a b c n _ hi
  rw [ExtractVec3_four]
  rcases ExtractFloat_cases H a with ⟨x, hx⟩ | hx <;>
    rcases ExtractFloat_cases H b with ⟨y, hy⟩ | hy <;>
    rcases ExtractFloat_cases H c with ⟨z, hz⟩ | hz <;>
    simp [hx, hy, hz, Outcome.isThrown] at h <;>
    simp only [hx, hy, hz, Outcome.bind]

theorem ExtractVec3_wrapped (H : Host) (a b c : AnyValue) :
    sizeAdd 18446744073709551615 2 = 1 ∧
      ¬ (18446744073709551615 < [a, b, c].length) ∧
      ExtractVec3 H [a, b, c] 18446744073709551615 = .undefined := by
  have hsum : sizeAdd 18446744073709551615 2 = 1 := by
    unfold sizeAdd
    norm_num
  have hnone : [a, b, c].get? 18446744073709551615 = none :=
    List.get?_eq_none.mpr (by simp)
  refine ⟨hsum, by simp, ?_⟩
  unfold ExtractVec3
  rw [hsum, if_neg (by simp)]
  simp only [argAt, hnone, Outcome.bind]

/-! ## Theorems -/

/-- Claim C1: for every world, every method name outside the catalogue of `GetAvailableMethods`
and every argument list, `CallMethod` returns an Error result and the world (prop table, prop
positions, game mode and all the rest) is the one before the call. -/
theorem callMethod_unknown_name_error_keeps_state (H : Host) (w : World) (methodName : String)
    (args : List AnyValue) (h : methodName ∉ catalogueNames) :
    ∃ message, CallMethod H w methodName args = .ret (ScriptMethodResult.Error message, w) := by
  simp only [catalogueNames_eq, List.mem_cons, List.mem_singleton, not_or, List.mem_nil_iff,
    or_false] at h
  obtain ⟨h1, h2, h3, h4, h5, h6, h7⟩ := h
  exact ⟨"未知的方法: " ++ methodName, by simp [CallMethod, h1, h2, h3, h4, h5, h6, h7, Outcome.tryCatch]⟩

theorem callMethod_unknown_name_error_keeps_state_witness :
    "flyToMoon" ∉ catalogueNames ∧
      ∃ message, CallMethod sampleHost sampleWorld "flyToMoon" [AnyValue.int 1] =
        .ret (ScriptMethodResult.Error message, sampleWorld) :=
  ⟨by decide, callMethod_unknown_name_error_keeps_state sampleHost sampleWorld "flyToMoon"
    [AnyValue.int 1] (by decide)⟩

/-- Claim C2: for every catalogue method and every argument list whose length differs from the
count the method expects (createCube 3, moveProp 4, executeCommand 1, executeFile 1,
getPlayerPosition 0, isAttractMode 0, getGameState 0), `CallMethod` returns an Error result and
the world is unchanged; the Error is the same in every world, so no accessor of the game (the
player accessor of getPlayerPosition among them) decides it, and no extra argument is ignored. -/
theorem callMethod_wrong_arg_count_error_keeps_state (H : Host) (methodName : String) (n : Nat)
    (args : List AnyValue) (hcat : (methodName, n) ∈ expectedArgCounts)
    (hlen : args.length ≠ n) :
    ∃ message, ∀ w : World,
      CallMethod H w methodName args = .ret (ScriptMethodResult.Error message, w) :=
  ⟨methodName ++ " 需要 " ++ toString n ++ " 個參數，但收到 " ++ toString args.length ++ " 個",
    fun w => by
      rw [CallMethod_wrong_count H w methodName n args hcat hlen,
        ValidateArgCount_of_ne args n methodName hlen]⟩

theorem callMethod_wrong_arg_count_error_keeps_state_witness :
    ("getPlayerPosition", 0) ∈ expectedArgCounts ∧ [AnyValue.cstr "extra"].length ≠ 0 ∧
      ∃ message, ∀ w : World,
        CallMethod sampleHost w "getPlayerPosition" [AnyValue.cstr "extra"] =
          .ret (ScriptMethodResult.Error message, w) :=
  ⟨by decide, by decide,
    callMethod_wrong_arg_count_error_keeps_state sampleHost "getPlayerPosition" 0
      [AnyValue.cstr "extra"] (by decide) (by decide)⟩

/-- Claim C3: for every world, every catalogue method and every argument list of the correct
length in which some argument has a kind the extractor of the method rejects (a string where
createCube or moveProp expect a vector component, an int where executeCommand expects a string,
and so on), `CallMethod` returns an Error result and nothing of the operation is applied: the
world, with its prop table and every prop position, is the one before the call. -/
theorem callMethod_rejected_argument_error_keeps_state (H : Host) (w : World)
    (methodName : String) (args : List AnyValue) (h : RejectedCall H methodName args) :
    ∃ message, CallMethod H w methodName args = .ret (ScriptMethodResult.Error message, w) := by
  cases h with
  | createCube a b c h =>
    rw [CallMethod_createCube]
    simp only [ExecuteCreateCube, ExtractVec3_three]
    rcases ExtractFloat_cases H a with ⟨x, hx⟩ | hx <;>
      rcases ExtractFloat_cases H b with ⟨y, hy⟩ | hy <;>
      rcases ExtractFloat_cases H c with ⟨z, hz⟩ | hz <;>
      simp [hx, hy, hz, Outcome.isThrown] at h <;>
      simp [hx, hy, hz, ValidateArgCount, ScriptMethodResult.Success, ScriptMethodResult.Error,
        Outcome.bind, Outcome.tryCatch]
  | moveProp i a b c h =>
    rw [CallMethod_moveProp]
    simp only [ExecuteMoveProp, ExtractVec3_four]
    rcases ExtractInt_cases i with ⟨n, hn⟩ | hn <;>
      rcases ExtractFloat_cases H a with ⟨x, hx⟩ | hx <;>
      rcases ExtractFloat_cases H b with ⟨y, hy⟩ | hy <;>
      rcases ExtractFloat_cases H c with ⟨z, hz⟩ | hz <;>
      simp [hn, hx, hy, hz, Outcome.isThrown] at h <;>
      simp [hn, hx, hy, hz, argAt, ValidateArgCount, ScriptMethodResult.Success,
        ScriptMethodResult.Error, Outcome.bind, Outcome.tryCatch]
  | executeCommand a h =>
    rw [CallMethod_executeCommand]
    rcases ExtractString_cases a with ⟨s, hs⟩ | hs
    · simp [hs, Outcome.isThrown] at h
    · simp [hs, ExecuteJavaScriptCommand, argAt, ValidateArgCount, ScriptMethodResult.Success,
        ScriptMethodResult.Error, Outcome.bind, Outcome.tryCatch]
  | executeFile a h =>
    rw [CallMethod_executeFile]
    rcases ExtractString_cases a with ⟨s, hs⟩ | hs
    · simp [hs, Outcome.isThrown] at h
    · simp [hs, ExecuteJavaScriptFile, argAt, ValidateArgCount, ScriptMethodResult.Success,
        ScriptMethodResult.Error, Outcome.bind, Outcome.tryCatch]

theorem callMethod_rejected_argument_error_keeps_state_witness :
    RejectedCall sampleHost "moveProp"
        [AnyValue.int 0, AnyValue.double 5, AnyValue.string "up", AnyValue.double 5] ∧
      ∃ message,
        CallMethod sampleHost sampleWorld "moveProp"
            [AnyValue.int 0, AnyValue.double 5, AnyValue.string "up", AnyValue.double 5] =
          .ret (ScriptMethodResult.Error message, sampleWorld) :=
  ⟨RejectedCall.moveProp _ _ _ _ (by decide),
    callMethod_rejected_argument_error_keeps_state sampleHost sampleWorld "moveProp"
      [AnyValue.int 0, AnyValue.double 5, AnyValue.string "up", AnyValue.double 5]
      (RejectedCall.moveProp _ _ _ _ (by decide))⟩

/-- Claim C4: `CallMethod` is total and lets no failure escape.  For every method name and every
argument list, of any length and any kinds (a C string argument being a valid string), it
returns, neither throwing nor running into undefined behaviour, exactly one
`ScriptMethodResult`, which is a Success or an Error.  And every failure raised by an extractor
inside a method is converted to an Error result that carries the failure text of the method
followed by the text of the thrown exception, with the world unchanged: a throw of `ExtractVec3`
in createCube or in moveProp, a throw of `ExtractFloat` on any component of either, a throw of
`ExtractInt` on the index of moveProp, a throw of `ExtractString` in executeCommand or
executeFile. -/
theorem callMethod_total (H : Host) (w : World) (methodName : String) (args : List AnyValue) :
    (∃ r w1, CallMethod H w methodName args = .ret (r, w1) ∧
      ((∃ v, r = ScriptMethodResult.Success v) ∨ ∃ m, r = ScriptMethodResult.Error m)) ∧
      (∀ a b c what, ExtractVec3 H [a, b, c] 0 = .thrown what →
        CallMethod H w "createCube" [a, b, c] =
          .ret (ScriptMethodResult.Error ("創建立方體失敗: " ++ what), w)) ∧
      (∀ a b c,
        (ExtractFloat H a).isThrown = true ∨ (ExtractFloat H b).isThrown = true ∨
          (ExtractFloat H c).isThrown = true →
        CallMethod H w "createCube" [a, b, c] =
          .ret (ScriptMethodResult.Error ("創建立方體失敗: " ++ "無法轉換為 float 類型"), w)) ∧
      (∀ i a b c what, ExtractInt i = .thrown what →
        CallMethod H w "moveProp" [i, a, b, c] =
          .ret (ScriptMethodResult.Error ("移動道具失敗: " ++ what), w)) ∧
      (∀ i a b c n what, ExtractInt i = .ret n →
        ExtractVec3 H [i, a, b, c] 1 = .thrown what →
        CallMethod H w "moveProp" [i, a, b, c] =
          .ret (ScriptMethodResult.Error ("移動道具失敗: " ++ what), w)) ∧
      (∀ i a b c n, ExtractInt i = .ret n →
        (ExtractFloat H a).isThrown = true ∨ (ExtractFloat H b).isThrown = true ∨
          (ExtractFloat H c).isThrown = true →
        CallMethod H w "moveProp" [i, a, b, c] =
          .ret (ScriptMethodResult.Error ("移動道具失敗: " ++ "無法轉換為 float 類型"), w)) ∧
      (∀ a what, ExtractString a = .thrown what →
        CallMethod H w "executeCommand" [a] =
          .ret (ScriptMethodResult.Error ("執行 JavaScript 指令失敗: " ++ what), w)) ∧
      (∀ a what, ExtractString a = .thrown what →
        CallMethod H w "executeFile" [a] =
          .ret (ScriptMethodResult.Error ("執行 JavaScript 檔案失敗: " ++ what), w)) :=
  ⟨returnsResult_callMethod H w methodName args,
    fun a b c what h => createCube_vec3_throw H w a b c what h,
    fun a b c h => createCube_float_throw H w a b c h,
    fun i a b c what h => moveProp_index_throw H w i a b c what h,
    fun i a b c n what hi h => moveProp_vec3_throw H w i a b c n what hi h,
    fun i a b c n hi h => moveProp_float_throw H w i a b c n hi h,
    fun a what h => executeCommand_string_throw H w a what h,
    fun a what h => executeFile_string_throw H w a what h⟩

theorem callMethod_total_witness :
    ExtractString (AnyValue.int 5) = .thrown "無法轉換為 string 類型" ∧
      CallMethod sampleHost sampleWorld "executeCommand" [AnyValue.int 5] =
        .ret (ScriptMethodResult.Error ("執行 JavaScript 指令失敗: " ++ "無法轉換為 string 類型"),
          sampleWorld) ∧
      ((ExtractFloat sampleHost (AnyValue.double 1)).isThrown = true ∨
        (ExtractFloat sampleHost (AnyValue.bool true)).isThrown = true ∨
        (ExtractFloat sampleHost (AnyValue.double 3)).isThrown = true) ∧
      CallMethod sampleHost sampleWorld "createCube"
          [AnyValue.double 1, AnyValue.bool true, AnyValue.double 3] =
        .ret (ScriptMethodResult.Error ("創建立方體失敗: " ++ "無法轉換為 float 類型"),
          sampleWorld) :=
  ⟨rfl,
    (callMethod_total sampleHost sampleWorld "executeCommand" [AnyValue.int 5]).2.2.2.2.2.2.1
      (AnyValue.int 5) _ rfl,
    by decide,
    (callMethod_total sampleHost sampleWorld "createCube" []).2.2.1 (AnyValue.double 1)
      (AnyValue.bool true) (AnyValue.double 3) (by decide)⟩

/-- Claim C5: for every world and every list of exactly three arguments that are each a float,
double or int value, `CallMethod "createCube"` returns Success with a string payload; afterwards
the prop table is the previous table with exactly one new prop appended (the count grows by
one), the position of the new prop is the vector of the three extracted components in the order
x, y, z, every prop that existed before is unchanged, and so are the player and the game mode. -/
theorem createCube_appends_one_prop (H : Host) (w : World) (a b c : AnyValue)
    (ha : a.isNumber = true) (hb : b.isNumber = true) (hc : c.isNumber = true) :
    ∃ x y z payload color w1,
      ExtractFloat H a = .ret x ∧ ExtractFloat H b = .ret y ∧ ExtractFloat H c = .ret z ∧
      CallMethod H w "createCube" [a, b, c] =
        .ret (ScriptMethodResult.Success (AnyValue.string payload), w1) ∧
      w1.game.m_props =
        w.game.m_props ++ [{ m_position := { x := x, y := y, z := z }, m_color := color }] ∧
      w1.game.m_props.length = w.game.m_props.length + 1 ∧
      (∀ i, i < w.game.m_props.length → w1.game.m_props.get? i = w.game.m_props.get? i) ∧
      w1.game.m_player = w.game.m_player ∧ w1.game.m_gameState = w.game.m_gameState := by
  obtain ⟨x, hx⟩ := ExtractFloat_of_isNumber H a ha
  obtain ⟨y, hy⟩ := ExtractFloat_of_isNumber H b hb
  obtain ⟨z, hz⟩ := ExtractFloat_of_isNumber H c hc
  refine ⟨x, y, z,
    "立方體創建成功，位置: (" ++ H.floatToString x ++ ", " ++ H.floatToString y ++ ", " ++
      H.floatToString z ++ ")",
    _, Game.CreateCube H w { x := x, y := y, z := z }, hx, hy, hz, ?_, rfl, ?_, ?_, rfl, rfl⟩
  · rw [CallMethod_createCube, ExecuteCreateCube_three]
    simp only [hx, hy, hz, Outcome.bind, Outcome.tryCatch]
  · simp [Game.CreateCube]
  · intro i hi
    simp [Game.CreateCube, List.getElem?_append_left hi]

theorem createCube_appends_one_prop_witness :
    (AnyValue.double 1).isNumber = true ∧ (AnyValue.double 2).isNumber = true ∧
      (AnyValue.double 3).isNumber = true ∧
    ∃ x y z payload color w1,
      ExtractFloat sampleHost (AnyValue.double 1) = .ret x ∧
      ExtractFloat sampleHost (AnyValue.double 2) = .ret y ∧
      ExtractFloat sampleHost (AnyValue.double 3) = .ret z ∧
      CallMethod sampleHost sampleWorld "createCube"
          [AnyValue.double 1, AnyValue.double 2, AnyValue.double 3] =
        .ret (ScriptMethodResult.Success (AnyValue.string payload), w1) ∧
      w1.game.m_props =
        sampleWorld.game.m_props ++
          [{ m_position := { x := x, y := y, z := z }, m_color := color }] ∧
      w1.game.m_props.length = sampleWorld.game.m_props.length + 1 ∧
      (∀ i, i < sampleWorld.game.m_props.length →
        w1.game.m_props.get? i = sampleWorld.game.m_props.get? i) ∧
      w1.game.m_player = sampleWorld.game.m_player ∧
      w1.game.m_gameState = sampleWorld.game.m_gameState :=
  ⟨rfl, rfl, rfl,
    createCube_appends_one_prop sampleHost sampleWorld (AnyValue.double 1) (AnyValue.double 2)
      (AnyValue.double 3) rfl rfl rfl⟩

/-- Claim C6, evaluated on the code: with a table of four props and the index 10,
`CallMethod "moveProp"` returns Success, with the payload stating that prop 10 was moved, and
not an Error; the world is unchanged. -/
theorem moveProp_invalid_index_reports_success (H : Host) :
    CallMethod H sampleWorld "moveProp"
        [AnyValue.int 10, AnyValue.double 5, AnyValue.double 0, AnyValue.double 5] =
      .ret (ScriptMethodResult.Success (AnyValue.string
              ("道具 " ++ toString (10 : Int) ++ " 移動成功，新位置: (" ++
                H.floatToString (H.floatOfDouble 5) ++ ", " ++
                H.floatToString (H.floatOfDouble 0) ++ ", " ++
                H.floatToString (H.floatOfDouble 5) ++ ")")),
            sampleWorld) := by
  rw [CallMethod_moveProp, ExecuteMoveProp_four]
  have hm : ∀ p, Game.MoveProp sampleWorld.game 10 p = .ret sampleWorld.game :=
    fun p => MoveProp_out_of_range sampleWorld.game 10 p (by decide)
  simp only [ExtractInt, ExtractFloat, Outcome.bind, Outcome.tryCatch, hm]

/-- Claim C7: for every world whose prop table has n entries and every int index i with i < 0
or i >= n, `CallMethod "moveProp"` on `[i, x, y, z]` returns with the world, hence the prop table
and the position of every prop, unchanged, whatever x, y and z are; `Game::MoveProp` itself
returns the game unchanged for such an index, and for no index at all does it read the table
outside its bounds. -/
theorem moveProp_invalid_index_keeps_state (H : Host) (w : World) (i : Int) (x y z : AnyValue)
    (hi : i < 0 ∨ (w.game.m_props.length : Int) ≤ i) :
    (∃ r, CallMethod H w "moveProp" [AnyValue.int i, x, y, z] = .ret (r, w)) ∧
      (∀ p, Game.MoveProp w.game i p = .ret w.game) ∧
      (∀ j p, Game.MoveProp w.game j p ≠ .undefined) := by
  have hm : ∀ p, Game.MoveProp w.game i p = .ret w.game :=
    fun p => MoveProp_out_of_range w.game i p hi
  refine ⟨?_, hm, ?_⟩
  · rw [CallMethod_moveProp, ExecuteMoveProp_four]
    rcases ExtractFloat_cases H x with ⟨a, ha⟩ | ha <;>
      rcases ExtractFloat_cases H y with ⟨b, hb⟩ | hb <;>
      rcases ExtractFloat_cases H z with ⟨c, hc⟩ | hc <;>
      simp only [ExtractInt, ha, hb, hc, hm, Outcome.bind, Outcome.tryCatch] <;>
      exact ⟨_, rfl⟩
  · intro j p hj
    obtain ⟨g1, hg⟩ := MoveProp_returns w.game j p
    rw [hg] at hj
    cases hj

theorem moveProp_invalid_index_keeps_state_witness :
    ((10 : Int) < 0 ∨ (sampleWorld.game.m_props.length : Int) ≤ 10) ∧
      (∃ r, CallMethod sampleHost sampleWorld "moveProp"
          [AnyValue.int 10, AnyValue.double 5, AnyValue.double 0, AnyValue.double 5] =
        .ret (r, sampleWorld)) ∧
      (∀ p, Game.MoveProp sampleWorld.game 10 p = .ret sampleWorld.game) ∧
      (∀ j p, Game.MoveProp sampleWorld.game j p ≠ .undefined) :=
  ⟨by decide,
    moveProp_invalid_index_keeps_state sampleHost sampleWorld 10 (AnyValue.double 5)
      (AnyValue.double 0) (AnyValue.double 5) (by decide)⟩

/-- Claim C8: the declared arities are the enforced ones.  For every descriptor d returned by
`GetAvailableMethods` and every argument list, `CallMethod` on the name of d gets past the
argument-count validation (its result is not the argument-count error) if and only if the
length of the list equals the number of parameter-type tags declared in d. -/
theorem declared_arity_is_enforced (H : Host) (w : World) (d : ScriptMethodInfo)
    (args : List AnyValue) (hd : d ∈ GetAvailableMethods) :
    (¬ ∃ r w1, CallMethod H w d.name args = .ret (r, w1) ∧ IsArgCountError d.name args r) ↔
      args.length = d.parameterTypes.length := by
  have hcat := descriptor_in_expectedArgCounts d hd
  constructor
  · intro hno
    by_contra hlen
    apply hno
    refine ⟨_, _, CallMethod_wrong_count H w d.name _ args hcat hlen, d.parameterTypes.length, ?_⟩
    exact ValidateArgCount_of_ne args _ d.name hlen
  · rintro hlen ⟨r, w1, hcall, hac⟩
    obtain ⟨r2, w2, hcall2, hbody⟩ := CallMethod_exact_count H w d.name _ args hcat hlen
    rw [hcall2] at hcall
    injection hcall with hpair
    injection hpair with hr _
    subst hr
    exact argCountError_not_bodyResult d.name _ args r2 hcat hac hbody

theorem declared_arity_is_enforced_witness :
    ({ name := "moveProp", description := "移動指定索引的道具到新位置",
       parameterTypes := ["int", "float", "float", "float"], returnType := "string" } :
        ScriptMethodInfo) ∈ GetAvailableMethods ∧
      ((¬ ∃ r w1,
          CallMethod sampleHost sampleWorld "moveProp" [AnyValue.int 0, AnyValue.double 5] =
            .ret (r, w1) ∧
          IsArgCountError "moveProp" [AnyValue.int 0, AnyValue.double 5] r) ↔
        [AnyValue.int 0, AnyValue.double 5].length = ["int", "float", "float", "float"].length) :=
  ⟨by decide,
    declared_arity_is_enforced sampleHost sampleWorld
      { name := "moveProp", description := "移動指定索引的道具到新位置",
        parameterTypes := ["int", "float", "float", "float"], returnType := "string" }
      [AnyValue.int 0, AnyValue.double 5] (by decide)⟩

/-- Claim C9: the catalogue is exactly what the dispatch accepts.  For every string s and every
argument list, `CallMethod` ends in its unknown-method branch (it returns the unknown-method
Error for s) if and only if s is not the name of a descriptor returned by
`GetAvailableMethods`. -/
theorem unknown_branch_iff_not_in_catalogue (H : Host) (w : World) (s : String)
    (args : List AnyValue) :
    CallMethod H w s args = .ret (ScriptMethodResult.Error ("未知的方法: " ++ s), w) ↔
      s ∉ GetAvailableMethods.map ScriptMethodInfo.name := by
  constructor
  · intro hcall hmem
    obtain ⟨n, hcat⟩ := catalogueName_has_count s hmem
    by_cases hlen : args.length = n
    · obtain ⟨r2, w2, hcall2, hbody⟩ := CallMethod_exact_count H w s n args hcat hlen
      rw [hcall2] at hcall
      injection hcall with hpair
      injection hpair with hr _
      subst hr
      exact unknownError_not_bodyResult s hbody
    · rw [CallMethod_wrong_count H w s n args hcat hlen] at hcall
      injection hcall with hpair
      injection hpair with hr _
      exact unknownError_ne_argCountError s n args hcat
        ⟨n, hr ▸ ValidateArgCount_of_ne args n s hlen⟩
  · intro hnot
    exact CallMethod_unknown H w s args hnot

/-- Claim C10, as stated, fails: for the name flyToMoon, which is not in the catalogue, the
message of the returned Error is not the text "unknown method: flyToMoon". -/
theorem english_unknown_message_refuted :
    "flyToMoon" ∉ catalogueNames ∧
      ∃ r w1, CallMethod sampleHost sampleWorld "flyToMoon" [] = .ret (r, w1) ∧
        r.success = false ∧ r.errorMessage ≠ "unknown method: " ++ "flyToMoon" :=
  ⟨by decide, _, _, CallMethod_unknown sampleHost sampleWorld "flyToMoon" [] (by decide), rfl,
    by decide⟩

/-- Claim C10, amended: for every method name n that is not in the catalogue, the Error
returned by `CallMethod` carries the message "未知的方法: " followed by n. -/
theorem unknown_method_message (H : Host) (w : World) (methodName : String)
    (args : List AnyValue) (h : methodName ∉ catalogueNames) :
    ∃ r, CallMethod H w methodName args = .ret (r, w) ∧ r.success = false ∧
      r.errorMessage = "未知的方法: " ++ methodName :=
  ⟨_, CallMethod_unknown H w methodName args h, rfl, rfl⟩

theorem unknown_method_message_witness :
    "flyToMoon" ∉ catalogueNames ∧
      ∃ r, CallMethod sampleHost sampleWorld "flyToMoon" [] = .ret (r, sampleWorld) ∧
        r.success = false ∧ r.errorMessage = "未知的方法: " ++ "flyToMoon" :=
  ⟨by decide, unknown_method_message sampleHost sampleWorld "flyToMoon" [] (by decide)⟩

/-- Claim C11, as stated, fails: two calls of createCube with the correct number of arguments
whose first offending arguments stand at different positions (0 in one, 1 in the other) return
the same Error, so the Error does not tell the positions apart. -/
theorem first_offender_position_not_reported :
    RejectedCall sampleHost "createCube"
        [AnyValue.string "a", AnyValue.double 1, AnyValue.double 2] ∧
      RejectedCall sampleHost "createCube"
        [AnyValue.double 1, AnyValue.string "a", AnyValue.double 2] ∧
      (firstOffence sampleHost "createCube"
        [AnyValue.string "a", AnyValue.double 1, AnyValue.double 2]).map Prod.fst = some 0 ∧
      (firstOffence sampleHost "createCube"
        [AnyValue.double 1, AnyValue.string "a", AnyValue.double 2]).map Prod.fst = some 1 ∧
      CallMethod sampleHost sampleWorld "createCube"
          [AnyValue.string "a", AnyValue.double 1, AnyValue.double 2] =
        CallMethod sampleHost sampleWorld "createCube"
          [AnyValue.double 1, AnyValue.string "a", AnyValue.double 2] := by
  refine ⟨RejectedCall.createCube _ _ _ (by decide), RejectedCall.createCube _ _ _ (by decide),
    by decide, by decide, ?_⟩
  rw [CallMethod_createCube, CallMethod_createCube, ExecuteCreateCube_three,
    ExecuteCreateCube_three]
  simp [ExtractFloat, Outcome.bind, Outcome.tryCatch]

/-- Claim C11, amended: for every call of a catalogue method with the correct number of
arguments in which at least one argument has a rejected kind, the Error returned by `CallMethod`
carries the failure of the first offending argument (the lowest position whose extraction
fails): its message is the failure text of the method followed by the text thrown by the
extractor of that position, which names the target type of the conversion and not the
position. -/
theorem error_carries_first_offence (H : Host) (w : World) (methodName : String)
    (args : List AnyValue) (h : RejectedCall H methodName args) :
    ∃ i what, firstOffence H methodName args = some (i, what) ∧
      CallMethod H w methodName args =
        .ret (ScriptMethodResult.Error (failureText methodName ++ what), w) := by
  cases h with
  | createCube a b c h =>
    rw [CallMethod_createCube, ExecuteCreateCube_three]
    rcases ExtractFloat_cases H a with ⟨x, hx⟩ | hx <;>
      rcases ExtractFloat_cases H b with ⟨y, hy⟩ | hy <;>
      rcases ExtractFloat_cases H c with ⟨z, hz⟩ | hz <;>
      simp [hx, hy, hz, Outcome.isThrown] at h <;>
      simp [hx, hy, hz, firstOffence, firstOffenceFrom, offenceAt, failureText,
        Outcome.thrownText, Outcome.bind, Outcome.tryCatch] <;>
      exact ⟨_, _, ⟨rfl, rfl⟩, rfl⟩
  | moveProp i a b c h =>
    rw [CallMethod_moveProp, ExecuteMoveProp_four]
    rcases ExtractInt_cases i with ⟨n, hn⟩ | hn <;>
      rcases ExtractFloat_cases H a with ⟨x, hx⟩ | hx <;>
      rcases ExtractFloat_cases H b with ⟨y, hy⟩ | hy <;>
      rcases ExtractFloat_cases H c with ⟨z, hz⟩ | hz <;>
      simp [hn, hx, hy, hz, Outcome.isThrown] at h <;>
      simp [hn, hx, hy, hz, firstOffence, firstOffenceFrom, offenceAt, failureText,
        Outcome.thrownText, Outcome.bind, Outcome.tryCatch] <;>
      exact ⟨_, _, ⟨rfl, rfl⟩, rfl⟩
  | executeCommand a h =>
    rw [CallMethod_executeCommand, ExecuteJavaScriptCommand_one]
    rcases ExtractString_cases a with ⟨t, ht⟩ | ht
    · simp [ht, Outcome.isThrown] at h
    · simp [ht, firstOffence, firstOffenceFrom, offenceAt, failureText, Outcome.thrownText,
        Outcome.bind, Outcome.tryCatch]
      exact ⟨_, _, ⟨rfl, rfl⟩, rfl⟩
  | executeFile a h =>
    rw [CallMethod_executeFile, ExecuteJavaScriptFile_one]
    rcases ExtractString_cases a with ⟨t, ht⟩ | ht
    · simp [ht, Outcome.isThrown] at h
    · simp [ht, firstOffence, firstOffenceFrom, offenceAt, failureText, Outcome.thrownText,
        Outcome.bind, Outcome.tryCatch]
      exact ⟨_, _, ⟨rfl, rfl⟩, rfl⟩

theorem error_carries_first_offence_witness :
    RejectedCall sampleHost "moveProp"
        [AnyValue.int 0, AnyValue.double 5, AnyValue.string "up", AnyValue.bool true] ∧
      ∃ i what,
        firstOffence sampleHost "moveProp"
            [AnyValue.int 0, AnyValue.double 5, AnyValue.string "up", AnyValue.bool true] =
          some (i, what) ∧
        CallMethod sampleHost sampleWorld "moveProp"
            [AnyValue.int 0, AnyValue.double 5, AnyValue.string "up", AnyValue.bool true] =
          .ret (ScriptMethodResult.Error (failureText "moveProp" ++ what), sampleWorld) :=
  ⟨RejectedCall.moveProp _ _ _ _ (by decide),
    error_carries_first_offence sampleHost sampleWorld "moveProp"
      [AnyValue.int 0, AnyValue.double 5, AnyValue.string "up", AnyValue.bool true]
      (RejectedCall.moveProp _ _ _ _ (by decide))⟩

/-- Claim C12: the argument count is checked before any extraction.  For every catalogue method
and every argument list of the wrong length, `CallMethod` returns exactly the result of
`ValidateArgCount`, the Error naming the method, the expected count and the received count,
whatever the kinds of the arguments; a list that is both of the wrong length and wrongly typed
gets the argument-count error and no conversion error.  The world is unchanged. -/
theorem wrong_count_yields_validateArgCount_result (H : Host) (w : World) (methodName : String)
    (n : Nat) (args : List AnyValue) (hcat : (methodName, n) ∈ expectedArgCounts)
    (hlen : args.length ≠ n) :
    CallMethod H w methodName args = .ret (ValidateArgCount args n methodName, w) ∧
      ValidateArgCount args n methodName =
        ScriptMethodResult.Error
          (methodName ++ " 需要 " ++ toString n ++ " 個參數，但收到 " ++ toString args.length ++
            " 個") :=
  ⟨CallMethod_wrong_count H w methodName n args hcat hlen,
    ValidateArgCount_of_ne args n methodName hlen⟩

theorem wrong_count_yields_validateArgCount_result_witness :
    ("createCube", 3) ∈ expectedArgCounts ∧
      [AnyValue.string "a", AnyValue.bool true].length ≠ 3 ∧
      CallMethod sampleHost sampleWorld "createCube" [AnyValue.string "a", AnyValue.bool true] =
        .ret (ValidateArgCount [AnyValue.string "a", AnyValue.bool true] 3 "createCube",
          sampleWorld) ∧
      ValidateArgCount [AnyValue.string "a", AnyValue.bool true] 3 "createCube" =
        ScriptMethodResult.Error
          ("createCube" ++ " 需要 " ++ toString 3 ++ " 個參數，但收到 " ++
            toString [AnyValue.string "a", AnyValue.bool true].length ++ " 個") :=
  ⟨by decide, by decide,
    wrong_count_yields_validateArgCount_result sampleHost sampleWorld "createCube" 3
      [AnyValue.string "a", AnyValue.bool true] (by decide) (by decide)⟩

/-- Claim C13: a property write is rejected and has no effect.  For every property name, the
catalogued attractMode and gameState and every other name, and every value, `SetProperty`
returns false, the world is unchanged, and `GetProperty` of the same name after the write
returns what it returned before the write. -/
theorem setProperty_rejected_without_effect (w : World) (propertyName : String)
    (value : AnyValue) :
    (SetProperty w propertyName value).1 = false ∧
      (SetProperty w propertyName value).2 = w ∧
      GetProperty (SetProperty w propertyName value).2 propertyName =
        GetProperty w propertyName :=
  ⟨rfl, rfl, rfl⟩

/-- Claim C14: the property lookup agrees with the property catalogue.  For every property
name p and every world, `GetProperty` returns a present (non-empty) value if and only if p is in
the list returned by `GetAvailableProperties`, and the absent value, the empty `std::any`, if and
only if p is not in that list; the lookup always returns a value. -/
theorem getProperty_present_iff_catalogued (w : World) (p : String) :
    (GetProperty w p ≠ AnyValue.empty ↔ p ∈ GetAvailableProperties) ∧
      (GetProperty w p = AnyValue.empty ↔ p ∉ GetAvailableProperties) := by
  have key : GetProperty w p = AnyValue.empty ↔ p ∉ GetAvailableProperties := by
    by_cases h1 : p = "attractMode"
    · subst h1
      simp [GetProperty, GetAvailableProperties]
    · by_cases h2 : p = "gameState"
      · subst h2
        simp [GetProperty, GetAvailableProperties]
      · simp [GetProperty, GetAvailableProperties, h1, h2]
  exact ⟨by rw [Ne, key, not_not], key⟩

/-- Claim C15: a property read is idempotent.  For every property name and every world, the
read leaves the world as it was and a second read right after the first returns the same value;
moreover the value depends on the game mode alone, so a read in any world with the same mode
returns it as well. -/
theorem property_read_idempotent (w w1 : World) (propertyName : String)
    (hmode : w1.game.m_gameState = w.game.m_gameState) :
    (readProperty w propertyName).2 = w ∧
      (readProperty (readProperty w propertyName).2 propertyName).1 =
        (readProperty w propertyName).1 ∧
      (readProperty w1 propertyName).1 = (readProperty w propertyName).1 := by
  refine ⟨rfl, rfl, ?_⟩
  simp [readProperty, GetProperty, Game.IsAttractMode, hmode]

theorem property_read_idempotent_witness :
    (Game.CreateCube sampleHost sampleWorld { x := 1, y := 2, z := 3 }).game.m_gameState =
        sampleWorld.game.m_gameState ∧
      (readProperty sampleWorld "gameState").2 = sampleWorld ∧
      (readProperty (readProperty sampleWorld "gameState").2 "gameState").1 =
        (readProperty sampleWorld "gameState").1 ∧
      (readProperty (Game.CreateCube sampleHost sampleWorld { x := 1, y := 2, z := 3 })
          "gameState").1 = (readProperty sampleWorld "gameState").1 :=
  ⟨rfl,
    property_read_idempotent sampleWorld
      (Game.CreateCube sampleHost sampleWorld { x := 1, y := 2, z := 3 }) "gameState" rfl⟩

/-- Claim C16: `ExtractFloat` succeeds on every float value (returned as it is), on every
double value (narrowed to float) and on every int value n (the float of n), and fails with the
conversion error on every string value and on every value of another kind (a C string, a
boolean, the empty value, any further type); the outcome is a whole float or the error. -/
theorem extractFloat_accepts_numbers_only (H : Host) :
    (∀ q, ExtractFloat H (AnyValue.float q) = .ret q) ∧
      (∀ q, ExtractFloat H (AnyValue.double q) = .ret (H.floatOfDouble q)) ∧
      (∀ n, ExtractFloat H (AnyValue.int n) = .ret (H.floatOfInt n)) ∧
      (∀ s, ExtractFloat H (AnyValue.string s) = .thrown "無法轉換為 float 類型") ∧
      (∀ s, ExtractFloat H (AnyValue.cstr s) = .thrown "無法轉換為 float 類型") ∧
      (∀ t, ExtractFloat H (AnyValue.other t) = .thrown "無法轉換為 float 類型") ∧
      (∀ b, ExtractFloat H (AnyValue.bool b) = .thrown "無法轉換為 float 類型") ∧
      ExtractFloat H AnyValue.empty = .thrown "無法轉換為 float 類型" :=
  ⟨fun _ => rfl, fun _ => rfl, fun _ => rfl, fun _ => rfl, fun _ => rfl, fun _ => rfl,
    fun _ => rfl, rfl⟩

/-- Claim C17, as stated, fails: the float 3000000000 truncated toward zero is 3000000000,
which no `int` holds, and `ExtractInt` does not return it. -/
theorem extractInt_truncation_out_of_range :
    truncTowardZero 3000000000 = 3000000000 ∧
      (∀ r : Int, r ≤ 2147483647 → r ≠ truncTowardZero 3000000000) ∧
      ExtractInt (AnyValue.float 3000000000) ≠ .ret (truncTowardZero 3000000000) := by
  have ht : truncTowardZero 3000000000 = 3000000000 := by
    unfold truncTowardZero
    norm_num
  refine ⟨ht, ?_, ?_⟩
  · intro r hr
    rw [ht]
    omega
  · rw [ht]
    decide

/-- Claim C17, amended: `ExtractInt` returns an int value unchanged, and returns a float or
double value truncated toward zero (2.9 gives 2, -2.9 gives -2) whenever the truncated value
lies in the range of `int`; it fails with the conversion error on every string value. -/
theorem extractInt_truncates_toward_zero (q : Rat)
    (hfit : -2147483648 ≤ truncTowardZero q ∧ truncTowardZero q ≤ 2147483647) :
    (∀ n, ExtractInt (AnyValue.int n) = .ret n) ∧
      ExtractInt (AnyValue.float q) = .ret (truncTowardZero q) ∧
      ExtractInt (AnyValue.double q) = .ret (truncTowardZero q) ∧
      ExtractInt (AnyValue.float 2.9) = .ret 2 ∧
      ExtractInt (AnyValue.double 2.9) = .ret 2 ∧
      ExtractInt (AnyValue.float (-2.9)) = .ret (-2) ∧
      ExtractInt (AnyValue.double (-2.9)) = .ret (-2) ∧
      (∀ s, ExtractInt (AnyValue.string s) = .thrown "無法轉換為 int 類型") := by
  have h1 : truncToInt 2.9 = 2 := by
    rw [truncToInt_of_fits 2.9 (by rw [truncTowardZero_2_9]; decide), truncTowardZero_2_9]
  have h2 : truncToInt (-2.9) = -2 := by
    rw [truncToInt_of_fits (-2.9) (by rw [truncTowardZero_neg_2_9]; decide),
      truncTowardZero_neg_2_9]
  refine ⟨fun _ => rfl, ?_, ?_, ?_, ?_, ?_, ?_, fun _ => rfl⟩
  · simp only [ExtractInt, truncToInt_of_fits q hfit]
  · simp only [ExtractInt, truncToInt_of_fits q hfit]
  · simp only [ExtractInt, h1]
  · simp only [ExtractInt, h1]
  · simp only [ExtractInt, h2]
  · simp only [ExtractInt, h2]

theorem extractInt_truncates_toward_zero_witness :
    (-2147483648 ≤ truncTowardZero (-2.9) ∧ truncTowardZero (-2.9) ≤ 2147483647) ∧
      (∀ n, ExtractInt (AnyValue.int n) = .ret n) ∧
      ExtractInt (AnyValue.float (-2.9)) = .ret (truncTowardZero (-2.9)) ∧
      ExtractInt (AnyValue.double (-2.9)) = .ret (truncTowardZero (-2.9)) ∧
      ExtractInt (AnyValue.float 2.9) = .ret 2 ∧
      ExtractInt (AnyValue.double 2.9) = .ret 2 ∧
      ExtractInt (AnyValue.float (-2.9)) = .ret (-2) ∧
      ExtractInt (AnyValue.double (-2.9)) = .ret (-2) ∧
      (∀ s, ExtractInt (AnyValue.string s) = .thrown "無法轉換為 int 類型") :=
  ⟨by rw [truncTowardZero_neg_2_9]; decide,
    extractInt_truncates_toward_zero (-2.9) (by rw [truncTowardZero_neg_2_9]; decide)⟩

/-- Claim C18, as stated, fails: `ExtractInt` of the boolean true does not return 1 (and of
false does not return 0); it throws. -/
theorem extractInt_bool_not_coerced :
    ExtractInt (AnyValue.bool true) ≠ .ret 1 ∧ ExtractInt (AnyValue.bool false) ≠ .ret 0 ∧
      (ExtractInt (AnyValue.bool true)).isThrown = true := by
  refine ⟨?_, ?_, rfl⟩ <;> simp [ExtractInt]

/-- Claim C18, amended: `ExtractInt` does not accept a boolean value; for every boolean b,
`ExtractInt` of b fails with the conversion error. -/
theorem extractInt_rejects_bool (b : Bool) :
    ExtractInt (AnyValue.bool b) = .thrown "無法轉換為 int 類型" := rfl

/-- Claim C19: `ExtractString` accepts strings only.  For every string value s, held as a
`std::string` or as a C string, it returns s unchanged; for every int, float, double or boolean
value it fails with the conversion error, so no number is turned into a string. -/
theorem extractString_accepts_strings_only :
    (∀ s, ExtractString (AnyValue.string s) = .ret s) ∧
      (∀ s, ExtractString (AnyValue.cstr s) = .ret s) ∧
      (∀ n, ExtractString (AnyValue.int n) = .thrown "無法轉換為 string 類型") ∧
      (∀ q, ExtractString (AnyValue.float q) = .thrown "無法轉換為 string 類型") ∧
      (∀ q, ExtractString (AnyValue.double q) = .thrown "無法轉換為 string 類型") ∧
      (∀ b, ExtractString (AnyValue.bool b) = .thrown "無法轉換為 string 類型") :=
  ⟨fun _ => rfl, fun _ => rfl, fun _ => rfl, fun _ => rfl, fun _ => rfl, fun _ => rfl⟩

/-- Claim C20: `ExtractBool` returns a boolean value unchanged, returns (n != 0) for every int
value n, and fails with the conversion error on every string, float and double value. -/
theorem extractBool_accepts_bool_and_int :
    (∀ b, ExtractBool (AnyValue.bool b) = .ret b) ∧
      (∀ n : Int, ExtractBool (AnyValue.int n) = .ret (decide (n ≠ 0))) ∧
      (ExtractBool (AnyValue.int 0) = .ret false ∧ ExtractBool (AnyValue.int 7) = .ret true ∧
        ExtractBool (AnyValue.int (-1)) = .ret true) ∧
      (∀ s, ExtractBool (AnyValue.string s) = .thrown "無法轉換為 bool 類型") ∧
      (∀ s, ExtractBool (AnyValue.cstr s) = .thrown "無法轉換為 bool 類型") ∧
      (∀ q, ExtractBool (AnyValue.float q) = .thrown "無法轉換為 bool 類型") ∧
      (∀ q, ExtractBool (AnyValue.double q) = .thrown "無法轉換為 bool 類型") :=
  ⟨fun _ => rfl, fun _ => rfl, ⟨by decide, by decide, by decide⟩, fun _ => rfl, fun _ => rfl,
    fun _ => rfl, fun _ => rfl⟩

/-- Claim C21: for every argument list (a `std::vector`, which holds at most `PTRDIFF_MAX`
elements) and every offset k with k <= length: `ExtractVec3` at k fails when fewer than three
arguments remain from k; otherwise it returns the vector of `ExtractFloat` of the arguments at
k, k+1, k+2 when all three extractions succeed, and fails with the failure of the
lowest-indexed component whose extraction fails. -/
theorem extractVec3_contract (H : Host) (args : List AnyValue) (k : Nat)
    (hsize : args.length ≤ 9223372036854775807) (hk : k ≤ args.length) :
    (args.length - k < 3 → ExtractVec3 H args k = .thrown "Vec3 需要 3 個參數 (x, y, z)") ∧
      (3 ≤ args.length - k →
        ∃ a b c, args.get? k = some a ∧ args.get? (k + 1) = some b ∧
          args.get? (k + 2) = some c ∧
          (∀ x y z, ExtractFloat H a = .ret x → ExtractFloat H b = .ret y →
            ExtractFloat H c = .ret z →
            ExtractVec3 H args k = .ret { x := x, y := y, z := z }) ∧
          (∀ what, ExtractFloat H a = .thrown what → ExtractVec3 H args k = .thrown what) ∧
          (∀ x what, ExtractFloat H a = .ret x → ExtractFloat H b = .thrown what →
            ExtractVec3 H args k = .thrown what) ∧
          (∀ x y what, ExtractFloat H a = .ret x → ExtractFloat H b = .ret y →
            ExtractFloat H c = .thrown what → ExtractVec3 H args k = .thrown what)) := by
  refine ⟨ExtractVec3_short H args k hsize hk, ?_⟩
  intro hlong
  have h0 : k < args.length := by omega
  have h1 : k + 1 < args.length := by omega
  have h2 : k + 2 < args.length := by omega
  have hchain :=
    ExtractVec3_at H args k (args.get ⟨k, h0⟩) (args.get ⟨k + 1, h1⟩) (args.get ⟨k + 2, h2⟩)
      hsize (List.get?_eq_get h0) (List.get?_eq_get h1) (List.get?_eq_get h2)
  refine ⟨_, _, _, List.get?_eq_get h0, List.get?_eq_get h1, List.get?_eq_get h2, ?_, ?_, ?_,
    ?_⟩
  · intro x y z hx hy hz
    rw [hchain, hx, hy, hz]
    rfl
  · intro what hx
    rw [hchain, hx]
    rfl
  · intro x what hx hy
    rw [hchain, hx, hy]
    rfl
  · intro x y what hx hy hz
    rw [hchain, hx, hy, hz]
    rfl

theorem extractVec3_contract_witness :
    [AnyValue.int 0, AnyValue.double 5, AnyValue.int 7, AnyValue.float 9].length ≤
        9223372036854775807 ∧
      1 ≤ [AnyValue.int 0, AnyValue.double 5, AnyValue.int 7, AnyValue.float 9].length ∧
      ExtractVec3 sampleHost [AnyValue.int 0, AnyValue.double 5, AnyValue.int 7, AnyValue.float 9]
          1 = .ret { x := 5, y := 7, z := 9 } := by
  have h := extractVec3_contract sampleHost
    [AnyValue.int 0, AnyValue.double 5, AnyValue.int 7, AnyValue.float 9] 1 (by decide)
    (by decide)
  obtain ⟨a, b, c, ha, hb, hc, hall, _⟩ := h.2 (by decide)
  refine ⟨by decide, by decide, ?_⟩
  simp only [List.get?, Option.some.injEq] at ha hb hc
  subst ha hb hc
  have := hall 5 7 9 rfl (by simp [ExtractFloat, sampleHost]) rfl
  simpa using this

/-- Claim C22: the method names in the list returned by `GetAvailableMethods` are pairwise
distinct; the list is a constant of seven descriptors, built without reading the game, so every
call returns the same list. -/
theorem catalogue_names_distinct :
    (GetAvailableMethods.map ScriptMethodInfo.name).Nodup ∧
      GetAvailableMethods.map ScriptMethodInfo.name =
        ["createCube", "moveProp", "getPlayerPosition", "executeCommand", "executeFile",
          "isAttractMode", "getGameState"] :=
  ⟨by decide, rfl⟩

/-- Claim C28: the query methods are read-only.  For every world and every argument list,
`CallMethod` with the name getPlayerPosition, isAttractMode or getGameState returns with the
world (prop table, prop positions, player, game mode) unchanged, whether the result is a Success
or an Error. -/
theorem query_methods_keep_state (H : Host) (w : World) (methodName : String)
    (args : List AnyValue)
    (hq : methodName ∈ ["getPlayerPosition", "isAttractMode", "getGameState"]) :
    ∃ r, CallMethod H w methodName args = .ret (r, w) := by
  simp only [List.mem_cons, List.mem_singleton, List.mem_nil_iff, or_false] at hq
  rcases hq with rfl | rfl | rfl
  · by_cases hlen : args.length = 0
    · obtain rfl := List.length_eq_zero.mp hlen
      rw [CallMethod_getPlayerPosition, ExecuteGetPlayerPosition_nil]
      cases w.game.m_player <;> exact ⟨_, rfl⟩
    · exact ⟨_, CallMethod_wrong_count H w "getPlayerPosition" 0 args (by decide) hlen⟩
  · by_cases hlen : args.length = 0
    · obtain rfl := List.length_eq_zero.mp hlen
      rw [CallMethod_isAttractMode, ExecuteIsAttractMode_nil]
      exact ⟨_, rfl⟩
    · exact ⟨_, CallMethod_wrong_count H w "isAttractMode" 0 args (by decide) hlen⟩
  · by_cases hlen : args.length = 0
    · obtain rfl := List.length_eq_zero.mp hlen
      rw [CallMethod_getGameState, ExecuteGetGameState_nil]
      exact ⟨_, rfl⟩
    · exact ⟨_, CallMethod_wrong_count H w "getGameState" 0 args (by decide) hlen⟩

theorem query_methods_keep_state_witness :
    "getGameState" ∈ ["getPlayerPosition", "isAttractMode", "getGameState"] ∧
      ∃ r, CallMethod sampleHost sampleWorld "getGameState" [] = .ret (r, sampleWorld) :=
  ⟨by decide, query_methods_keep_state sampleHost sampleWorld "getGameState" [] (by decide)⟩

/-- Claim C29: for every string s, held as a `std::string` or as a C string, `CallMethod` of
executeCommand and of executeFile on `[s]` returns Success with a string payload that ends with
s, whatever the script engine does with s: for every engine behaviour of the host, also when the
engine reports that running s failed, and in every world, also when the engine is absent or not
initialised, in which case the world is unchanged. -/
theorem execute_script_always_success (H : Host) (w : World) (s : String) :
    (∃ w1, CallMethod H w "executeCommand" [AnyValue.string s] =
        .ret (ScriptMethodResult.Success (AnyValue.string ("指令執行: " ++ s)), w1)) ∧
      (∃ w1, CallMethod H w "executeCommand" [AnyValue.cstr s] =
        .ret (ScriptMethodResult.Success (AnyValue.string ("指令執行: " ++ s)), w1)) ∧
      (∃ w1, CallMethod H w "executeFile" [AnyValue.string s] =
        .ret (ScriptMethodResult.Success (AnyValue.string ("檔案執行: " ++ s)), w1)) ∧
      (∃ w1, CallMethod H w "executeFile" [AnyValue.cstr s] =
        .ret (ScriptMethodResult.Success (AnyValue.string ("檔案執行: " ++ s)), w1)) ∧
      (∀ v8 : Option Bool, v8 ∈ [none, some false] →
        CallMethod H { w with v8 := v8 } "executeCommand" [AnyValue.string s] =
            .ret (ScriptMethodResult.Success (AnyValue.string ("指令執行: " ++ s)),
              { w with v8 := v8 }) ∧
          CallMethod H { w with v8 := v8 } "executeFile" [AnyValue.string s] =
            .ret (ScriptMethodResult.Success (AnyValue.string ("檔案執行: " ++ s)),
              { w with v8 := v8 })) := by
  refine ⟨⟨Game.ExecuteJavaScriptCommand H w s, ?_⟩, ⟨Game.ExecuteJavaScriptCommand H w s, ?_⟩,
    ⟨Game.ExecuteJavaScriptFile H w s, ?_⟩, ⟨Game.ExecuteJavaScriptFile H w s, ?_⟩, ?_⟩
  · rw [CallMethod_executeCommand, ExecuteJavaScriptCommand_one]; rfl
  · rw [CallMethod_executeCommand, ExecuteJavaScriptCommand_one]; rfl
  · rw [CallMethod_executeFile, ExecuteJavaScriptFile_one]; rfl
  · rw [CallMethod_executeFile, ExecuteJavaScriptFile_one]; rfl
  · intro v8 hv8
    rw [CallMethod_executeCommand, ExecuteJavaScriptCommand_one, CallMethod_executeFile,
      ExecuteJavaScriptFile_one]
    simp only [List.mem_cons, List.mem_singleton, List.mem_nil_iff, or_false] at hv8
    rcases hv8 with rfl | rfl <;> exact ⟨rfl, rfl⟩

theorem execute_script_always_success_witness :
    (∃ w1, CallMethod sampleHost sampleWorld "executeCommand" [AnyValue.string "1+"] =
        .ret (ScriptMethodResult.Success (AnyValue.string ("指令執行: " ++ "1+")), w1)) ∧
      (none : Option Bool) ∈ [none, some false] ∧
      CallMethod sampleHost { sampleWorld with v8 := none } "executeFile"
          [AnyValue.string "a.js"] =
        .ret (ScriptMethodResult.Success (AnyValue.string ("檔案執行: " ++ "a.js")),
          { sampleWorld with v8 := none }) :=
  ⟨(execute_script_always_success sampleHost sampleWorld "1+").1, by decide,
    ((execute_script_always_success sampleHost sampleWorld "a.js").2.2.2.2 none
      (by decide)).2⟩

/-- Claim C23, as stated, fails: in a world whose prop table has 2^31 entries the index 0 is
within the table, yet `CallMethod "moveProp"` on `[0, 5, 0, 5]` returns Success and leaves the
world unchanged; the prop at index 0 keeps the position (0, 0, 0). -/
theorem moveProp_valid_index_ignored_in_huge_table :
    (0 : Int) < (crowdedWorld.game.m_props.length : Int) ∧
      crowdedWorld.game.m_props.get? 0 = some (propAt 0 0 0) ∧
      (propAt 0 0 0).m_position ≠ { x := 5, y := 0, z := 5 } ∧
      ∃ payload,
        CallMethod sampleHost crowdedWorld "moveProp"
            [AnyValue.int 0, AnyValue.double 5, AnyValue.double 0, AnyValue.double 5] =
          .ret (ScriptMethodResult.Success (AnyValue.string payload), crowdedWorld) := by
  refine ⟨?_, ?_, by decide, ?_⟩
  · rw [crowdedWorld_length]
    norm_num
  · exact crowdedWorld_first
  · rw [CallMethod_moveProp, ExecuteMoveProp_four]
    simp only [ExtractInt, ExtractFloat, Outcome.bind_ret]
    rw [MoveProp_crowded 0 _ (le_refl 0)]
    simp only [Outcome.bind_ret, Outcome.tryCatch_ret, World.with_own_game]
    exact ⟨_, rfl⟩

/-- Claim C23, amended: for every world whose prop table has n entries with n at most
2147483647 (the largest `int`), every index i with 0 <= i < n, given as an int or as a float
or double whose truncation toward zero is i, and numeric x, y, z, `CallMethod "moveProp"`
returns Success with a string payload, sets the position of the prop at index i to the extracted
(x, y, z) and changes nothing else: the number of props, every prop at another index, the colour
of the moved prop, the player and the game mode are as before. -/
theorem moveProp_moves_exactly_one_prop (H : Host) (w : World) (i : Int) (idx x y z : AnyValue)
    (hsize : w.game.m_props.length ≤ 2147483647)
    (hi : 0 ≤ i ∧ i < (w.game.m_props.length : Int))
    (hidx : idx = AnyValue.int i ∨
      ∃ q, (idx = AnyValue.float q ∨ idx = AnyValue.double q) ∧ truncTowardZero q = i)
    (hx : x.isNumber = true) (hy : y.isNumber = true) (hz : z.isNumber = true) :
    ∃ px py pz payload old w1,
      ExtractFloat H x = .ret px ∧ ExtractFloat H y = .ret py ∧ ExtractFloat H z = .ret pz ∧
      CallMethod H w "moveProp" [idx, x, y, z] =
        .ret (ScriptMethodResult.Success (AnyValue.string payload), w1) ∧
      w.game.m_props.get? i.toNat = some old ∧
      w1.game.m_props.get? i.toNat =
        some { old with m_position := { x := px, y := py, z := pz } } ∧
      w1.game.m_props.length = w.game.m_props.length ∧
      (∀ j, j ≠ i.toNat → w1.game.m_props.get? j = w.game.m_props.get? j) ∧
      w1.game.m_player = w.game.m_player ∧ w1.game.m_gameState = w.game.m_gameState := by
  obtain ⟨px, hpx⟩ := ExtractFloat_of_isNumber H x hx
  obtain ⟨py, hpy⟩ := ExtractFloat_of_isNumber H y hy
  obtain ⟨pz, hpz⟩ := ExtractFloat_of_isNumber H z hz
  have hlt : i.toNat < w.game.m_props.length := by omega
  have hold : w.game.m_props.get? i.toNat = some (w.game.m_props.get ⟨i.toNat, hlt⟩) :=
    List.get?_eq_get hlt
  have hint : ExtractInt idx = .ret i := by
    rcases hidx with rfl | ⟨q, hq, htr⟩
    · rfl
    · have hfit : -2147483648 ≤ truncTowardZero q ∧ truncTowardZero q ≤ 2147483647 := by
        rw [htr]
        omega
      rcases hq with rfl | rfl <;> simp only [ExtractInt, truncToInt_of_fits q hfit, htr]
  have hmove := MoveProp_in_range w.game i { x := px, y := py, z := pz } _ hsize hi hold
  refine ⟨px, py, pz,
    "道具 " ++ toString i ++ " 移動成功，新位置: (" ++ H.floatToString px ++ ", " ++
      H.floatToString py ++ ", " ++ H.floatToString pz ++ ")",
    w.game.m_props.get ⟨i.toNat, hlt⟩,
    { w with game := { w.game with m_props := (w.game.m_props.set i.toNat
        { m_position := { x := px, y := py, z := pz },
          m_color := (w.game.m_props.get ⟨i.toNat, hlt⟩).m_color }) } },
    hpx, hpy, hpz, ?_, hold, ?_, ?_, ?_, rfl, rfl⟩
  · rw [CallMethod_moveProp, ExecuteMoveProp_four]
    simp only [hint, hpx, hpy, hpz, hmove, Outcome.bind, Outcome.tryCatch]
  · simp [List.getElem?_set, hlt]
  · simp
  · intro j hj
    simp [List.getElem?_set, Ne.symm hj]

theorem moveProp_moves_exactly_one_prop_witness :
    sampleWorld.game.m_props.length ≤ 2147483647 ∧
      ((0 : Int) ≤ 2 ∧ (2 : Int) < (sampleWorld.game.m_props.length : Int)) ∧
      ∃ px py pz payload old w1,
        ExtractFloat sampleHost (AnyValue.double 5) = .ret px ∧
        ExtractFloat sampleHost (AnyValue.int 0) = .ret py ∧
        ExtractFloat sampleHost (AnyValue.float 5) = .ret pz ∧
        CallMethod sampleHost sampleWorld "moveProp"
            [AnyValue.double 2.9, AnyValue.double 5, AnyValue.int 0, AnyValue.float 5] =
          .ret (ScriptMethodResult.Success (AnyValue.string payload), w1) ∧
        sampleWorld.game.m_props.get? (2 : Int).toNat = some old ∧
        w1.game.m_props.get? (2 : Int).toNat =
          some { old with m_position := { x := px, y := py, z := pz } } ∧
        w1.game.m_props.length = sampleWorld.game.m_props.length ∧
        (∀ j, j ≠ (2 : Int).toNat →
          w1.game.m_props.get? j = sampleWorld.game.m_props.get? j) ∧
        w1.game.m_player = sampleWorld.game.m_player ∧
        w1.game.m_gameState = sampleWorld.game.m_gameState :=
  ⟨by decide, by decide,
    moveProp_moves_exactly_one_prop sampleHost sampleWorld 2 (AnyValue.double 2.9)
      (AnyValue.double 5) (AnyValue.int 0) (AnyValue.float 5) (by decide) (by decide)
      (Or.inr ⟨2.9, Or.inr rfl, truncTowardZero_2_9⟩) rfl rfl rfl⟩

/-- Claim C24, evaluated on the code: right after the construction of the game, with the player
at (-2, 0, 1), `CallMethod "getPlayerPosition"` returns Success with the text of the position
(0, 0, 0), the local constant of the method, and not of the position of the player. -/
theorem getPlayerPosition_reports_origin (H : Host) :
    constructedWorld.game.m_player = some { m_position := { x := -2, y := 0, z := 1 } } ∧
      CallMethod H constructedWorld "getPlayerPosition" [] =
        .ret (ScriptMethodResult.Success (AnyValue.string
                ("\x7b x: " ++ H.floatToString 0 ++ ", y: " ++ H.floatToString 0 ++
                  ", z: " ++ H.floatToString 0 ++ " \x7d")),
              constructedWorld) := by
  refine ⟨rfl, ?_⟩
  rw [CallMethod_getPlayerPosition, ExecuteGetPlayerPosition_nil]
  rfl

/-- Claim C26, as stated, fails: the value that `GetProperty "gameState"` holds and the Success
payload of `CallMethod "getGameState"` are not of the same kind; they differ as values. -/
theorem gameState_property_kind_differs :
    ∃ v w1, CallMethod sampleHost sampleWorld "getGameState" [] =
        .ret (ScriptMethodResult.Success v, w1) ∧
      GetProperty sampleWorld "gameState" ≠ v ∧
      GetProperty sampleWorld "gameState" = AnyValue.cstr "game" ∧ v = AnyValue.string "game" :=
  ⟨AnyValue.string "game", sampleWorld, by
    rw [CallMethod_getGameState, ExecuteGetGameState_nil]
    rfl, by decide, by decide, rfl⟩

/-- Claim C26, amended: the methods and the properties that expose the game mode agree in
content.  For every world, `GetProperty "attractMode"` holds the same boolean as the Success
payload of isAttractMode, namely (gameState == ATTRACT); `GetProperty "gameState"` holds the
same text as the Success payload of getGameState, "attract" in attract mode and "game"
otherwise, the property as a C string and the payload as a `std::string`, and `ExtractString`
gives equal results on both. -/
theorem mode_property_and_method_agree (H : Host) (w : World) :
    GetProperty w "attractMode" =
        AnyValue.bool (decide (w.game.m_gameState = eGameState.ATTRACT)) ∧
      CallMethod H w "isAttractMode" [] =
        .ret (ScriptMethodResult.Success
                (AnyValue.bool (decide (w.game.m_gameState = eGameState.ATTRACT))), w) ∧
      GetProperty w "gameState" =
        AnyValue.cstr (if w.game.m_gameState = eGameState.ATTRACT then "attract" else "game") ∧
      CallMethod H w "getGameState" [] =
        .ret (ScriptMethodResult.Success
                (AnyValue.string
                  (if w.game.m_gameState = eGameState.ATTRACT then "attract" else "game")), w) ∧
      ExtractString (GetProperty w "gameState") =
        ExtractString
          (AnyValue.string
            (if w.game.m_gameState = eGameState.ATTRACT then "attract" else "game")) := by
  refine ⟨?_, ?_, ?_, ?_, ?_⟩
  · simp [GetProperty, Game.IsAttractMode]
  · rw [CallMethod_isAttractMode, ExecuteIsAttractMode_nil]
    rfl
  · simp [GetProperty, Game.IsAttractMode]
  · rw [CallMethod_getGameState, ExecuteGetGameState_nil]
    simp [Game.IsAttractMode, Outcome.tryCatch]
  · simp [GetProperty, Game.IsAttractMode, ExtractString]

/-- Claim C27, as stated, fails: the descriptor of getPlayerPosition declares the return type
object, and a successful call returns a `std::string` payload, which is not a non-string
value. -/
theorem getPlayerPosition_payload_is_string :
    ({ name := "getPlayerPosition", description := "取得玩家目前位置", parameterTypes := [],
       returnType := "object" } : ScriptMethodInfo) ∈ GetAvailableMethods ∧
      ∃ v w1, CallMethod sampleHost sampleWorld "getPlayerPosition" [] =
          .ret (ScriptMethodResult.Success v, w1) ∧
        payloadMatchesTag "object" v = false ∧ ∃ t, v = AnyValue.string t := by
  refine ⟨by decide,
    AnyValue.string
      ("\x7b x: " ++ sampleHost.floatToString 0 ++ ", y: " ++ sampleHost.floatToString 0 ++
        ", z: " ++ sampleHost.floatToString 0 ++ " \x7d"),
    sampleWorld, ?_, rfl, _, rfl⟩
  rw [CallMethod_getPlayerPosition, ExecuteGetPlayerPosition_nil]
  rfl

/-- Claim C27, amended: for every catalogue method and every call on which `CallMethod` returns
Success, the payload is a boolean when the declared return type is bool and a `std::string`
otherwise, that is for the return type string and for the return type object of
getPlayerPosition, whose object is handed over as a string. -/
theorem success_payload_kind (H : Host) (w w1 : World) (d : ScriptMethodInfo)
    (args : List AnyValue) (v : AnyValue) (hd : d ∈ GetAvailableMethods)
    (hcall : CallMethod H w d.name args = .ret (ScriptMethodResult.Success v, w1)) :
    (d.returnType = "bool" → ∃ b, v = AnyValue.bool b) ∧
      (d.returnType ≠ "bool" → ∃ t, v = AnyValue.string t) ∧
      (d.returnType = "string" → payloadMatchesTag "string" v = true) ∧
      (d.returnType = "bool" → payloadMatchesTag "bool" v = true) := by
  have hcat := descriptor_in_expectedArgCounts d hd
  have hiff := returnType_bool_iff d hd
  obtain ⟨r, w2, hr, hkind⟩ := CallMethod_payload_kind H w d.name _ args hcat
  rw [hr] at hcall
  injection hcall with hpair
  injection hpair with hres _
  subst hres
  rcases hkind with ⟨m, hm⟩ | ⟨b, hname, hb⟩ | ⟨t, hname, ht⟩
  · have := congrArg ScriptMethodResult.success hm
    simp [ScriptMethodResult.Success, ScriptMethodResult.Error] at this
  · have hv : v = AnyValue.bool b := by
      have := congrArg ScriptMethodResult.result hb
      simpa [ScriptMethodResult.Success] using this
    subst hv
    refine ⟨fun _ => ⟨b, rfl⟩, fun hne => absurd (hiff.mpr hname) hne, ?_, fun _ => rfl⟩
    intro hs
    have hbool := hiff.mpr hname
    rw [hs] at hbool
    exact absurd hbool (by decide)
  · have hv : v = AnyValue.string t := by
      have := congrArg ScriptMethodResult.result ht
      simpa [ScriptMethodResult.Success] using this
    subst hv
    exact ⟨fun hb => absurd (hiff.mp hb) hname, fun _ => ⟨t, rfl⟩, fun _ => rfl,
      fun hb => absurd (hiff.mp hb) hname⟩

theorem success_payload_kind_witness :
    ({ name := "getPlayerPosition", description := "取得玩家目前位置", parameterTypes := [],
       returnType := "object" } : ScriptMethodInfo) ∈ GetAvailableMethods ∧
      CallMethod sampleHost sampleWorld "getPlayerPosition" [] =
        .ret (ScriptMethodResult.Success (AnyValue.string
                ("\x7b x: " ++ sampleHost.floatToString 0 ++ ", y: " ++
                  sampleHost.floatToString 0 ++ ", z: " ++ sampleHost.floatToString 0 ++
                  " \x7d")), sampleWorld) ∧
      ("object" ≠ "bool" → ∃ t,
        AnyValue.string
            ("\x7b x: " ++ sampleHost.floatToString 0 ++ ", y: " ++
              sampleHost.floatToString 0 ++ ", z: " ++ sampleHost.floatToString 0 ++ " \x7d") =
          AnyValue.string t) := by
  have hcall : CallMethod sampleHost sampleWorld "getPlayerPosition" [] =
      .ret (ScriptMethodResult.Success (AnyValue.string
              ("\x7b x: " ++ sampleHost.floatToString 0 ++ ", y: " ++
                sampleHost.floatToString 0 ++ ", z: " ++ sampleHost.floatToString 0 ++
                " \x7d")), sampleWorld) := by
    rw [CallMethod_getPlayerPosition, ExecuteGetPlayerPosition_nil]
    rfl
  exact ⟨by decide, hcall,
    (success_payload_kind sampleHost sampleWorld sampleWorld
      { name := "getPlayerPosition", description := "取得玩家目前位置", parameterTypes := [],
        returnType := "object" } [] _ (by decide) hcall).2.1⟩

/-- Claim C25, as stated, fails: in `App::Shutdown` the release of `g_theGame` is the first
statement and the shutdown of the scripting subsystem the fourth; started from the state that
`App::Startup` leaves, the sequence passes through a state in which the game is destroyed while
the scripting subsystem is running and still holds the binding. -/
theorem shutdown_releases_game_before_script_engine :
    afterStartup = { gameAlive := true, v8Running := true, gameBound := true } ∧
      App.Shutdown.indexOf ShutdownStep.releaseGame <
        App.Shutdown.indexOf ShutdownStep.v8Shutdown ∧
      ∃ s ∈ statesAlong afterStartup App.Shutdown,
        s.gameAlive = false ∧ s.v8Running = true ∧ s.gameBound = true ∧
          s.bindingSafe = false :=
  ⟨by decide, by decide,
    { gameAlive := false, v8Running := true, gameBound := true }, by decide, rfl, rfl, rfl, rfl⟩

/-- Claim C25, amended: in the sequence of steps performed by `App::Shutdown` the release of
`g_theGame` is the first statement and `g_theV8Subsystem->Shutdown()` the fourth, with only the
releases of `g_theRNG` and `g_theBitmapFont` between them.  Started with the scripting subsystem
running and bound to the game, the wrapped game is destroyed while the subsystem is still
running and bound, which is the state after each of the first three statements; the binding is
removed by the fourth statement, and in every later state the game is destroyed and the
subsystem stopped and unbound. -/
theorem shutdown_destroys_game_then_unbinds (s : AppState) (hrun : s.v8Running = true)
    (hbound : s.gameBound = true) :
    App.Shutdown.take 4 =
        [ShutdownStep.releaseGame, ShutdownStep.releaseRNG, ShutdownStep.releaseBitmapFont,
          ShutdownStep.v8Shutdown] ∧
      (statesAlong s App.Shutdown).take 3 =
        [{ gameAlive := false, v8Running := true, gameBound := true },
          { gameAlive := false, v8Running := true, gameBound := true },
          { gameAlive := false, v8Running := true, gameBound := true }] ∧
      (∀ t ∈ (statesAlong s App.Shutdown).take 3, t.bindingSafe = false) ∧
      (∀ t ∈ (statesAlong s App.Shutdown).drop 3,
        t = { gameAlive := false, v8Running := false, gameBound := false }) := by
  have htake : (statesAlong s App.Shutdown).take 3 =
      [{ gameAlive := false, v8Running := true, gameBound := true },
        { gameAlive := false, v8Running := true, gameBound := true },
        { gameAlive := false, v8Running := true, gameBound := true }] := by
    simp [statesAlong, App.Shutdown, applyShutdownStep, hrun, hbound]
  refine ⟨rfl, htake, ?_, ?_⟩
  · intro t ht
    rw [htake] at ht
    simp only [List.mem_cons, List.mem_singleton, List.mem_nil_iff, or_false, or_self] at ht
    subst ht
    rfl
  · intro t ht
    simp only [statesAlong, App.Shutdown, applyShutdownStep, List.drop, List.mem_cons,
      List.mem_singleton, List.mem_nil_iff, or_false, or_self] at ht
    exact ht

theorem shutdown_destroys_game_then_unbinds_witness :
    afterStartup.v8Running = true ∧ afterStartup.gameBound = true ∧
      App.Shutdown.take 4 =
        [ShutdownStep.releaseGame, ShutdownStep.releaseRNG, ShutdownStep.releaseBitmapFont,
          ShutdownStep.v8Shutdown] ∧
      (statesAlong afterStartup App.Shutdown).take 3 =
        [{ gameAlive := false, v8Running := true, gameBound := true },
          { gameAlive := false, v8Running := true, gameBound := true },
          { gameAlive := false, v8Running := true, gameBound := true }] ∧
      (∀ t ∈ (statesAlong afterStartup App.Shutdown).take 3, t.bindingSafe = false) ∧
      (∀ t ∈ (statesAlong afterStartup App.Shutdown).drop 3,
        t = { gameAlive := false, v8Running := false, gameBound := false }) :=
  ⟨by decide, by decide,
    shutdown_destroys_game_then_unbinds afterStartup (by decide) (by decide)⟩

/-- Claim C30, as stated, fails: with three arguments and the start index 2^64 - 1 the sum
`startIndex + 2` wraps to 1, the guard of `ExtractVec3` lets the call pass although the start
index is not below the length, and the first read, `args[startIndex]`, lies outside the vector:
the call neither fails with the needs-three-arguments error nor reads within the bounds. -/
theorem extractVec3_wrapped_index_unsafe :
    sizeAdd 18446744073709551615 2 = 1 ∧
      ¬ (18446744073709551615 <
        [AnyValue.double 1, AnyValue.double 2, AnyValue.double 3].length) ∧
      ExtractVec3 sampleHost [AnyValue.double 1, AnyValue.double 2, AnyValue.double 3]
          18446744073709551615 = .undefined ∧
      ExtractVec3 sampleHost [AnyValue.double 1, AnyValue.double 2, AnyValue.double 3]
          18446744073709551615 ≠ .thrown "Vec3 需要 3 個參數 (x, y, z)" := by
  have h := ExtractVec3_wrapped sampleHost (AnyValue.double 1) (AnyValue.double 2)
    (AnyValue.double 3)
  refine ⟨h.1, h.2.1, h.2.2, ?_⟩
  rw [h.2.2]
  exact fun hne => Outcome.noConfusion hne

/-- Claim C30, amended: `ExtractVec3` is index-safe whenever `startIndex + 2` does not wrap
around.  For every argument list and every start index of type `size_t` with
`startIndex + 2 < 2^64`, in particular for the start indices 0 and 1 that the source passes,
`ExtractVec3` either fails with the needs-three-arguments error, the list being no longer than
`startIndex + 2`, or reads only the positions startIndex, startIndex+1, startIndex+2, which all
lie below the length; it never reads outside the vector. -/
theorem extractVec3_index_safe_without_wrap (H : Host) (args : List AnyValue) (startIndex : Nat)
    (hk : startIndex + 2 < 18446744073709551616) :
    (args.length ≤ startIndex + 2 ∧
        ExtractVec3 H args startIndex = .thrown "Vec3 需要 3 個參數 (x, y, z)") ∨
      (startIndex + 2 < args.length ∧
        ∃ a b c, args.get? startIndex = some a ∧ args.get? (startIndex + 1) = some b ∧
          args.get? (startIndex + 2) = some c ∧
          ExtractVec3 H args startIndex =
            ((ExtractFloat H a).bind fun x =>
              (ExtractFloat H b).bind fun y =>
              (ExtractFloat H c).bind fun z => .ret { x := x, y := y, z := z }) ∧
          ExtractVec3 H args startIndex ≠ .undefined) := by
  by_cases hlen : args.length ≤ startIndex + 2
  · left
    refine ⟨hlen, ?_⟩
    unfold ExtractVec3
    rw [sizeAdd_small startIndex 2 hk, if_pos hlen]
  · right
    have h2 : startIndex + 2 < args.length := by omega
    have h1 : startIndex + 1 < args.length := by omega
    have h0 : startIndex < args.length := by omega
    have hchain : ExtractVec3 H args startIndex =
        ((ExtractFloat H (args.get ⟨startIndex, h0⟩)).bind fun x =>
          (ExtractFloat H (args.get ⟨startIndex + 1, h1⟩)).bind fun y =>
          (ExtractFloat H (args.get ⟨startIndex + 2, h2⟩)).bind fun z =>
          .ret { x := x, y := y, z := z }) := by
      unfold ExtractVec3
      rw [sizeAdd_small startIndex 2 hk, sizeAdd_small startIndex 1 (by omega), if_neg hlen]
      simp only [argAt, List.get?_eq_get h0, List.get?_eq_get h1, List.get?_eq_get h2,
        Outcome.bind]
    refine ⟨h2, _, _, _, List.get?_eq_get h0, List.get?_eq_get h1, List.get?_eq_get h2,
      hchain, ?_⟩
    rw [hchain]
    rcases ExtractFloat_cases H (args.get ⟨startIndex, h0⟩) with ⟨x, hx⟩ | hx <;>
      rcases ExtractFloat_cases H (args.get ⟨startIndex + 1, h1⟩) with ⟨y, hy⟩ | hy <;>
      rcases ExtractFloat_cases H (args.get ⟨startIndex + 2, h2⟩) with ⟨z, hz⟩ | hz <;>
      simp only [hx, hy, hz, Outcome.bind] <;>
      intro hne <;>
      cases hne

theorem extractVec3_index_safe_without_wrap_witness :
    (1 + 2 < 18446744073709551616) ∧
      ((([AnyValue.int 0, AnyValue.double 5, AnyValue.int 7, AnyValue.float 9].length ≤ 1 + 2 ∧
          ExtractVec3 sampleHost
              [AnyValue.int 0, AnyValue.double 5, AnyValue.int 7, AnyValue.float 9] 1 =
            .thrown "Vec3 需要 3 個參數 (x, y, z)")) ∨
        (1 + 2 < [AnyValue.int 0, AnyValue.double 5, AnyValue.int 7, AnyValue.float 9].length ∧
          ∃ a b c,
            [AnyValue.int 0, AnyValue.double 5, AnyValue.int 7, AnyValue.float 9].get? 1 =
              some a ∧
            [AnyValue.int 0, AnyValue.double 5, AnyValue.int 7, AnyValue.float 9].get? (1 + 1) =
              some b ∧
            [AnyValue.int 0, AnyValue.double 5, AnyValue.int 7, AnyValue.float 9].get? (1 + 2) =
              some c ∧
            ExtractVec3 sampleHost
                [AnyValue.int 0, AnyValue.double 5, AnyValue.int 7, AnyValue.float 9] 1 =
              ((ExtractFloat sampleHost a).bind fun x =>
                (ExtractFloat sampleHost b).bind fun y =>
                (ExtractFloat sampleHost c).bind fun z => .ret { x := x, y := y, z := z }) ∧
            ExtractVec3 sampleHost
                [AnyValue.int 0, AnyValue.double 5, AnyValue.int 7, AnyValue.float 9] 1 ≠
              .undefined)) :=
  ⟨by decide,
    extractVec3_index_safe_without_wrap sampleHost
      [AnyValue.int 0, AnyValue.double 5, AnyValue.int 7, AnyValue.float 9] 1 (by decide)⟩

end FirstV8
